import Mathlib

/-!
# TinyMQ: packet codec, session handlers and broker registry

A shallow embedding of `src/src/packet.{h,cpp}`, `src/src/session.{h,cpp}` and
`src/src/broker.{h,cpp}`, followed by the properties proved about it.

Conventions of the embedding:

* `uint8_t` is `Fin 256`; a narrowing `static_cast<uint8_t>` is `toU8` (reduction modulo 256),
  a narrowing to `uint16_t` is `toU16` (reduction modulo 65536).
* `std::vector<uint8_t>` and `std::string` are lists of octets.
* `std::shared_ptr<Session>` is an address (`SessionRef`); two pointers are equal when the
  addresses are. The session objects live in a heap indexed by address.
* `std::unordered_map<K, V>` is a partial function `K → Option V`.
* Logging through `ui::print_message` has no effect on the state and is left out.
-/

namespace tinymq

/-! ## packet.h / packet.cpp -/

/-- One octet, the C++ type uint8_t. -/
abbrev Byte := Fin 256

/-- A sequence of octets: std::vector<uint8_t>, and std::string read as octets. -/
abbrev Bytes := List Byte

/-- The narrowing conversion static_cast<uint8_t>. -/
def toU8 (n : Nat) : Byte := ⟨n % 256, Nat.mod_lt n (by decide)⟩

/-- The narrowing conversion static_cast<uint16_t>. -/
def toU16 (n : Nat) : Nat := n % 65536

/-- The enum class PacketType over uint8_t. The decoder casts any octet to it, so every
octet is a value of the type; the eight enumerators are named below. -/
abbrev PacketType := Byte

def PacketType.CONN : PacketType := 0x01
def PacketType.CONNACK : PacketType := 0x02
def PacketType.PUB : PacketType := 0x03
def PacketType.PUBACK : PacketType := 0x04
def PacketType.SUB : PacketType := 0x05
def PacketType.SUBACK : PacketType := 0x06
def PacketType.UNSUB : PacketType := 0x07
def PacketType.UNSUBACK : PacketType := 0x08

/-- The struct PacketHeader; payload_length is a uint16_t, kept below 65536 by toU16 at
every assignment. -/
structure PacketHeader where
  type : PacketType
  flags : Byte
  payload_length : Nat
  deriving DecidableEq, Repr

/-- The class Packet: the private members header_ and payload_. -/
structure Packet where
  header_ : PacketHeader
  payload_ : Bytes
  deriving DecidableEq, Repr

namespace Packet

/-- The constructor Packet(type, flags, payload): the length field is the payload size
narrowed to 16 bits. -/
def new (type : PacketType) (flags : Byte) (payload : Bytes) : Packet :=
  { header_ := { type := type, flags := flags, payload_length := toU16 payload.length },
    payload_ := payload }

/-- The default constructor Packet(). -/
def empty : Packet :=
  { header_ := { type := 0, flags := 0, payload_length := 0 }, payload_ := [] }

/-- The accessor type(). -/
def type (p : Packet) : PacketType := p.header_.type

/-- The accessor flags(). -/
def flags (p : Packet) : Byte := p.header_.flags

/-- The accessor payload(). -/
def payload (p : Packet) : Bytes := p.payload_

/-- Packet::serialize: type, flags, high and low octet of the length field, then the
payload. -/
def serialize (p : Packet) : Bytes :=
  let buffer : Bytes := []
  let buffer := buffer ++ [p.header_.type]
  let buffer := buffer ++ [p.header_.flags]
  let buffer := buffer ++ [toU8 (p.header_.payload_length >>> 8)]
  let buffer := buffer ++ [toU8 (p.header_.payload_length &&& 0xFF)]
  buffer ++ p.payload_

/-- Packet::deserialize: the returned flag is the C++ return value, the returned packet is
the receiver after the call (the header is already overwritten when the second size check
fails). -/
def deserialize (self : Packet) (data : Bytes) : Bool × Packet :=
  if data.length < 4 then
    (false, self)
  else
    let header : PacketHeader :=
      { type := data.getD 0 0
        flags := data.getD 1 0
        payload_length := toU16 (((data.getD 2 0).val <<< 8) ||| (data.getD 3 0).val) }
    if data.length < 4 + header.payload_length then
      (false, { self with header_ := header })
    else
      (true, { header_ := header, payload_ := (data.drop 4).take header.payload_length })

end Packet

/-! ## Program state -/

/-- A std::shared_ptr<Session>, identified by the address of the session it points to. -/
abbrev SessionRef := Nat

/-- A std::unordered_map from keys to values: a partial function on the keys. -/
abbrev UnorderedMap (κ ν : Type) := κ → Option ν

namespace UnorderedMap

/-- The map without entries. -/
def empty {κ ν : Type} : UnorderedMap κ ν := fun _ => none

/-- The lookup find(k): none stands for end(). -/
def find {κ ν : Type} (m : UnorderedMap κ ν) (k : κ) : Option ν := m k

/-- The assignment m[k] = v, which creates the entry when it is missing. -/
def assign {κ ν : Type} [DecidableEq κ] (m : UnorderedMap κ ν) (k : κ) (v : ν) :
    UnorderedMap κ ν :=
  fun k' => if k' = k then some v else m k'

/-- The removal erase(k). -/
def erase {κ ν : Type} [DecidableEq κ] (m : UnorderedMap κ ν) (k : κ) : UnorderedMap κ ν :=
  fun k' => if k' = k then none else m k'

/-- A loop over all entries that replaces every value v by f v. -/
def forEachValue {κ ν : Type} (m : UnorderedMap κ ν) (f : ν → ν) : UnorderedMap κ ν :=
  fun k => (m k).map f

end UnorderedMap

/-- The session-local members of class Session that the handlers read or write: client_id_,
is_authenticated_, and whether socket_ is still open (socket_.close() clears it). -/
structure Session where
  client_id_ : Bytes
  is_authenticated_ : Bool
  socket_open : Bool
  deriving DecidableEq, Repr

/-- A session as constructed on accept: empty client id, not authenticated, socket open. -/
def Session.accepted : Session :=
  { client_id_ := [], is_authenticated_ := false, socket_open := true }

/-- The two registry maps of class Broker. -/
structure Broker where
  sessions_ : UnorderedMap Bytes SessionRef
  topic_subscribers_ : UnorderedMap Bytes (List SessionRef)

/-- The registry of a freshly constructed broker. -/
def Broker.empty : Broker :=
  { sessions_ := UnorderedMap.empty, topic_subscribers_ := UnorderedMap.empty }

/-- The whole state: the session objects by address, the broker registry, and the trace of
buffers handed to async_write, oldest first, each with the session whose socket it was
written to. -/
structure World where
  heap : SessionRef → Session
  broker : Broker
  writes : List (SessionRef × Bytes)

/-- The state after start-up: every session is as constructed on accept, the registry is
empty and nothing was written. -/
def World.init : World :=
  { heap := fun _ => Session.accepted, broker := Broker.empty, writes := [] }

/-! ## session.cpp: the write path -/

/-- Session::send_packet: serialize the packet and hand the buffer to async_write on this
session's socket. (The completion handler, which runs only on a write error, is the
event Session.on_io_error.) -/
def Session.send_packet (w : World) (self : SessionRef) (packet : Packet) : World :=
  let serialized := packet.serialize
  { w with writes := w.writes ++ [(self, serialized)] }

/-- Session::send_ack: an acknowledgement of the given type with flags 0; the payload is
the big-endian packet id when that is positive and empty otherwise. -/
def Session.send_ack (w : World) (self : SessionRef) (ack_type : PacketType)
    (packet_id : Nat) : World :=
  let payload : Bytes := []
  let payload :=
    if packet_id > 0 then
      (payload ++ [toU8 (packet_id >>> 8)]) ++ [toU8 (packet_id &&& 0xFF)]
    else payload
  let ack_packet := Packet.new ack_type 0 payload
  Session.send_packet w self ack_packet

/-! ## broker.cpp: the registry -/

/-- The idiom v.erase(std::remove_if(v.begin(), v.end(), pred), v.end()) with the predicate
s == target, and equally v.erase(std::remove(v.begin(), v.end(), target), v.end()): drop
every occurrence of target, keep the others in order. -/
def eraseRemove (target : SessionRef) (subscribers : List SessionRef) : List SessionRef :=
  subscribers.filter (fun s => !(s == target))

namespace Broker

/-- Broker::register_session. The client id is read through the session pointer. When the
id is already a key, the session stored there is removed from every subscriber list; the
reset() of the stored pointer is overwritten by the assignment that follows. -/
def register_session (b : Broker) (heap : SessionRef → Session) (session : SessionRef) :
    Broker :=
  let client_id := (heap session).client_id_
  let topic_subscribers :=
    match b.sessions_.find client_id with
    | some old_session => b.topic_subscribers_.forEachValue (eraseRemove old_session)
    | none => b.topic_subscribers_
  { sessions_ := b.sessions_.assign client_id session,
    topic_subscribers_ := topic_subscribers }

/-- Broker::remove_session. -/
def remove_session (b : Broker) (heap : SessionRef → Session) (session : SessionRef) :
    Broker :=
  let client_id := (heap session).client_id_
  if client_id.isEmpty then
    b
  else
    { sessions_ := b.sessions_.erase client_id,
      topic_subscribers_ := b.topic_subscribers_.forEachValue (eraseRemove session) }

/-- Broker::subscribe. The reference topic_subscribers_[topic] creates an empty list when
the topic has no entry; the session is pushed at the back when std::find does not find
it. -/
def subscribe (b : Broker) (session : SessionRef) (topic : Bytes) : Broker :=
  let topic_subscribers :=
    match b.topic_subscribers_.find topic with
    | some _ => b.topic_subscribers_
    | none => b.topic_subscribers_.assign topic []
  let subscribers := (topic_subscribers.find topic).getD []
  if ¬ session ∈ subscribers then
    { b with topic_subscribers_ := topic_subscribers.assign topic (subscribers ++ [session]) }
  else
    { b with topic_subscribers_ := topic_subscribers }

/-- Broker::unsubscribe. -/
def unsubscribe (b : Broker) (session : SessionRef) (topic : Bytes) : Broker :=
  match b.topic_subscribers_.find topic with
  | some subscribers =>
    let subscribers := eraseRemove session subscribers
    let topic_subscribers := b.topic_subscribers_.assign topic subscribers
    if subscribers.isEmpty then
      { b with topic_subscribers_ := topic_subscribers.erase topic }
    else
      { b with topic_subscribers_ := topic_subscribers }
  | none => b

/-- Broker::publish: snapshot the subscriber list of the topic; when it is not empty, build
one PUB packet and call send_packet on every subscriber in list order. -/
def publish (w : World) (topic : Bytes) (message : Bytes) : World :=
  let subscribers : List SessionRef :=
    match w.broker.topic_subscribers_.find topic with
    | some l => l
    | none => []
  if subscribers.isEmpty then
    w
  else
    let payload : Bytes := []
    let payload := payload ++ [toU8 topic.length]
    let payload := payload ++ topic
    let payload := payload ++ message
    let packet := Packet.new PacketType.PUB 0 payload
    subscribers.foldl (fun w subscriber => Session.send_packet w subscriber packet) w

end Broker

/-! ## session.cpp: the handlers -/

namespace Session

/-- Session::handle_connect. -/
def handle_connect (w : World) (self : SessionRef) (packet : Packet) : World :=
  let payload := packet.payload
  if !payload.isEmpty then
    let session := { (w.heap self) with client_id_ := payload, is_authenticated_ := true }
    let w := { w with heap := Function.update w.heap self session }
    let w := send_ack w self PacketType.CONNACK 0
    { w with broker := w.broker.register_session w.heap self }
  else
    let session := { (w.heap self) with socket_open := false }
    { w with heap := Function.update w.heap self session }

/-- Session::handle_publish. -/
def handle_publish (w : World) (self : SessionRef) (packet : Packet) : World :=
  if !(w.heap self).is_authenticated_ then
    w
  else
    let payload := packet.payload
    if payload.length > 1 then
      let topic_length : Nat := (payload.getD 0 0).val
      if payload.length > topic_length + 1 then
        let topic := (payload.drop 1).take topic_length
        let message_payload := payload.drop (1 + topic_length)
        let w := Broker.publish w topic message_payload
        send_ack w self PacketType.PUBACK 0
      else w
    else w

/-- Session::handle_subscribe. -/
def handle_subscribe (w : World) (self : SessionRef) (packet : Packet) : World :=
  if !(w.heap self).is_authenticated_ then
    w
  else
    let payload := packet.payload
    if !payload.isEmpty then
      let topic := payload
      let w := { w with broker := w.broker.subscribe self topic }
      send_ack w self PacketType.SUBACK 0
    else w

/-- Session::handle_unsubscribe. -/
def handle_unsubscribe (w : World) (self : SessionRef) (packet : Packet) : World :=
  if !(w.heap self).is_authenticated_ then
    w
  else
    let payload := packet.payload
    if !payload.isEmpty then
      let topic := payload
      let w := { w with broker := w.broker.unsubscribe self topic }
      send_ack w self PacketType.UNSUBACK 0
    else w

/-- Session::process_packet: dispatch on the packet type; any other type is logged and
ignored. The read_header() that follows only schedules the next read. -/
def process_packet (w : World) (self : SessionRef) (packet : Packet) : World :=
  if packet.type = PacketType.CONN then handle_connect w self packet
  else if packet.type = PacketType.PUB then handle_publish w self packet
  else if packet.type = PacketType.SUB then handle_subscribe w self packet
  else if packet.type = PacketType.UNSUB then handle_unsubscribe w self packet
  else w

/-- The error branch of the completion handlers of read_header, read_payload and
send_packet (end of stream or I/O error): broker_.remove_session(shared_from_this()). -/
def on_io_error (w : World) (self : SessionRef) : World :=
  { w with broker := w.broker.remove_session w.heap self }

end Session

/-! ## client.cpp: building and parsing a PUB payload -/

/-- A MessageCallback object, identified by a number. -/
abbrev CallbackRef := Nat

/-- The members of class Client that publish and handle_publish read or write: connected_,
whether socket_ is set and open, and topic_handlers_ (an empty std::function is none);
together with the buffers written to the socket and the callback invocations, oldest
first. -/
structure Client where
  connected_ : Bool
  socket_open : Bool
  topic_handlers_ : UnorderedMap Bytes (Option CallbackRef)
  written : List Bytes
  calls : List (CallbackRef × Bytes × Bytes)

namespace Client

/-- Client::send_packet: false when the socket is missing or closed, otherwise the
serialized packet is written. (A write that throws is a fault of the network.) -/
def send_packet (c : Client) (packet : Packet) : Bool × Client :=
  if !c.socket_open then
    (false, c)
  else
    let serialized := packet.serialize
    (true, { c with written := c.written ++ [serialized] })

/-- Client::publish(topic, message) on octets: the payload is the topic size narrowed to
one octet, the topic, the message. -/
def publish (c : Client) (topic : Bytes) (message : Bytes) : Bool × Client :=
  if !c.connected_ then
    (false, c)
  else
    let payload : Bytes := []
    let payload := payload ++ [toU8 topic.length]
    let payload := payload ++ topic
    let payload := payload ++ message
    let pub_packet := Packet.new PacketType.PUB 0 payload
    let sent := c.send_packet pub_packet
    if !sent.1 then (false, sent.2) else (true, sent.2)

/-- Client::handle_publish: split the payload as Session::handle_publish does and invoke
the callback registered for the topic, when there is one. -/
def handle_publish (c : Client) (packet : Packet) : Client :=
  let payload := packet.payload
  if payload.length > 1 then
    let topic_length : Nat := (payload.getD 0 0).val
    if payload.length > topic_length + 1 then
      let topic := (payload.drop 1).take topic_length
      let message := payload.drop (1 + topic_length)
      let callback : Option CallbackRef :=
        match c.topic_handlers_.find topic with
        | some registered => registered
        | none => none
      match callback with
      | some cb => { c with calls := c.calls ++ [(cb, topic, message)] }
      | none => c
    else c
  else c

end Client

/-! ## Reachable registry states -/

/-- The registry states reachable from the empty registry by calls of
Broker::register_session, remove_session, subscribe, unsubscribe and publish with any
arguments. Between two calls the session objects may have changed, so every call sees an
arbitrary heap (and publish an arbitrary earlier trace). -/
inductive Broker.Reachable : Broker → Prop
  | empty : Broker.Reachable Broker.empty
  | register_session {b : Broker} (heap : SessionRef → Session) (session : SessionRef) :
      Broker.Reachable b → Broker.Reachable (b.register_session heap session)
  | remove_session {b : Broker} (heap : SessionRef → Session) (session : SessionRef) :
      Broker.Reachable b → Broker.Reachable (b.remove_session heap session)
  | subscribe {b : Broker} (session : SessionRef) (topic : Bytes) :
      Broker.Reachable b → Broker.Reachable (b.subscribe session topic)
  | unsubscribe {b : Broker} (session : SessionRef) (topic : Bytes) :
      Broker.Reachable b → Broker.Reachable (b.unsubscribe session topic)
  | publish {b : Broker} (heap : SessionRef → Session) (writes : List (SessionRef × Bytes))
      (topic message : Bytes) :
      Broker.Reachable b →
      Broker.Reachable (Broker.publish (World.mk heap b writes) topic message).broker

/-- The states reachable from start-up when sessions process received packets and
connections close. A session processes a packet only while its socket is open and its read
loop has not ended; a received packet is built by the constructor from at most 65,535
payload octets; a connection closes at most once. The first index lists the sessions
whose connection has closed. -/
inductive World.Reachable : List SessionRef → World → Prop
  | init : World.Reachable [] World.init
  | process_packet {closed : List SessionRef} {w : World} (self : SessionRef)
      (type : PacketType) (flags : Byte) (payload : Bytes) :
      World.Reachable closed w → self ∉ closed → (w.heap self).socket_open = true →
      payload.length ≤ 65535 →
      World.Reachable closed (Session.process_packet w self (Packet.new type flags payload))
  | connection_closed {closed : List SessionRef} {w : World} (self : SessionRef) :
      World.Reachable closed w → self ∉ closed →
      World.Reachable (self :: closed) (Session.on_io_error w self)

/-! ## Sample runs -/

/-- The state after session 0 sent CONN with client id "a" to a fresh broker. -/
def World.oneClient : World :=
  Session.process_packet World.init 0 (Packet.new PacketType.CONN 0 [97])

/-- The registry after session 0 subscribed to topic "t" and was then removed while its
client id was "a": the entry of "t" is left with an empty list. -/
def Broker.emptiedTopic : Broker :=
  (Broker.empty.subscribe 0 [116]).remove_session World.oneClient.heap 0

/-- The state after sessions 0 and 1 both sent CONN with client id "x": session 1 has
displaced session 0, whose connection is still open. -/
def World.displaced : World :=
  Session.process_packet
    (Session.process_packet World.init 0 (Packet.new PacketType.CONN 0 [120]))
    1 (Packet.new PacketType.CONN 0 [120])

/-- The state World.displaced after session 1 subscribed to topic "t". -/
def World.displacedSubscribed : World :=
  Session.process_packet World.displaced 1 (Packet.new PacketType.SUB 0 [116])

/-- The registry in which session 0 is registered under client id "x" and sessions 0 and 2
are subscribed to topic "t", in this order. -/
def Broker.twoSubscribers : Broker :=
  ((Broker.empty.register_session World.displaced.heap 0).subscribe 0 [116]).subscribe 2 [116]

/-- The state after session 0 sent CONN with client id "a" and then CONN with client id
"b". -/
def World.renamed : World :=
  Session.process_packet World.oneClient 0 (Packet.new PacketType.CONN 0 [98])

/-- The state after session 0 sent CONN with client id "a", session 1 sent CONN with
client id "b", and both subscribed to topic "t", session 0 first. -/
def World.twoSubscribed : World :=
  Session.process_packet
    (Session.process_packet
      (Session.process_packet World.oneClient 1 (Packet.new PacketType.CONN 0 [98]))
      0 (Packet.new PacketType.SUB 0 [116]))
    1 (Packet.new PacketType.SUB 0 [116])

/-- A connected client with an open socket and callback 7 registered for topic "t". -/
def Client.listening : Client :=
  { connected_ := true, socket_open := true,
    topic_handlers_ := UnorderedMap.assign UnorderedMap.empty [116] (some 7),
    written := [], calls := [] }

/-! ## Arithmetic of the length field -/

theorem toU8_val (n : Nat) : (toU8 n).val = n % 256 := rfl

theorem shiftRight8_eq_div (n : Nat) : n >>> 8 = n / 256 := by
  rw [Nat.shiftRight_eq_div_pow]

theorem and_0xFF_eq_mod (n : Nat) : n &&& 0xFF = n % 256 :=
  Nat.and_pow_two_sub_one_eq_mod n 8

theorem hi_lo_recombine (n : Nat) (h : n < 65536) :
    toU16 (((toU8 (n >>> 8)).val <<< 8) ||| (toU8 (n &&& 0xFF)).val) = n := by
  rw [toU8_val, toU8_val, shiftRight8_eq_div, and_0xFF_eq_mod, Nat.shiftLeft_eq]
  have hlt : n % 256 % 256 < 2 ^ 8 := by omega
  have hor := Nat.mul_add_lt_is_or hlt (n / 256 % 256)
  rw [Nat.mul_comm] at hor
  rw [← hor]
  unfold toU16
  omega

theorem serialize_eq (p : Packet) :
    p.serialize = p.header_.type :: p.header_.flags :: toU8 (p.header_.payload_length >>> 8)
      :: toU8 (p.header_.payload_length &&& 0xFF) :: p.payload_ := rfl

/-! ## Helper lemmas on the write path and the dispatch -/

theorem ack_frame (t : PacketType) : (Packet.new t 0 []).serialize = [t, 0, 0, 0] := by
  have h1 : toU8 (toU16 0 >>> 8) = 0 := by decide
  have h2 : toU8 (toU16 0 &&& 0xFF) = 0 := by decide
  rw [serialize_eq]
  simp only [Packet.new, List.length_nil, h1, h2]

theorem send_ack_zero (w : World) (self : SessionRef) (t : PacketType) :
    Session.send_ack w self t 0
      = { w with writes := w.writes ++ [(self, (Packet.new t 0 []).serialize)] } := by
  simp [Session.send_ack, Session.send_packet]

theorem foldl_send_packet (packet : Packet) (subscribers : List SessionRef) (w : World) :
    subscribers.foldl (fun w subscriber => Session.send_packet w subscriber packet) w
      = { w with writes := w.writes ++ subscribers.map (fun s => (s, packet.serialize)) } := by
  induction subscribers generalizing w with
  | nil => simp
  | cons s rest ih =>
    rw [List.foldl_cons, ih]
    simp [Session.send_packet]

theorem publish_eq (w : World) (topic message : Bytes) :
    Broker.publish w topic message
      = World.mk w.heap w.broker (w.writes ++
          ((w.broker.topic_subscribers_ topic).getD []).map
            (fun s => (s, (Packet.new PacketType.PUB 0
              (toU8 topic.length :: (topic ++ message))).serialize))) := by
  unfold Broker.publish UnorderedMap.find
  cases hsub : w.broker.topic_subscribers_ topic with
  | none => simp
  | some l =>
    cases l with
    | nil => simp
    | cons s rest =>
      simp only [List.isEmpty_cons, Bool.false_eq_true, if_false, foldl_send_packet]
      simp

theorem process_packet_CONN (w : World) (self : SessionRef) (packet : Packet)
    (h : packet.type = PacketType.CONN) :
    Session.process_packet w self packet = Session.handle_connect w self packet := by
  unfold Session.process_packet
  rw [if_pos h]

theorem process_packet_PUB (w : World) (self : SessionRef) (packet : Packet)
    (h : packet.type = PacketType.PUB) :
    Session.process_packet w self packet = Session.handle_publish w self packet := by
  unfold Session.process_packet
  rw [h, if_neg (by decide), if_pos rfl]

theorem process_packet_SUB (w : World) (self : SessionRef) (packet : Packet)
    (h : packet.type = PacketType.SUB) :
    Session.process_packet w self packet = Session.handle_subscribe w self packet := by
  unfold Session.process_packet
  rw [h, if_neg (by decide), if_neg (by decide), if_pos rfl]

theorem process_packet_UNSUB (w : World) (self : SessionRef) (packet : Packet)
    (h : packet.type = PacketType.UNSUB) :
    Session.process_packet w self packet = Session.handle_unsubscribe w self packet := by
  unfold Session.process_packet
  rw [h, if_neg (by decide), if_neg (by decide), if_neg (by decide), if_pos rfl]

theorem handle_connect_nonempty (w : World) (self : SessionRef) (packet : Packet)
    (hne : packet.payload ≠ []) :
    Session.handle_connect w self packet
      = { heap := Function.update w.heap self
            { (w.heap self) with client_id_ := packet.payload, is_authenticated_ := true },
          broker := w.broker.register_session
            (Function.update w.heap self
              { (w.heap self) with client_id_ := packet.payload, is_authenticated_ := true })
            self,
          writes := w.writes ++ [(self, (Packet.new PacketType.CONNACK 0 []).serialize)] } := by
  have he : packet.payload.isEmpty = false := by
    cases hp : packet.payload with
    | nil => exact absurd hp hne
    | cons a l => rfl
  unfold Session.handle_connect
  simp only [he, Bool.not_false, if_true, send_ack_zero]

theorem subscribe_sessions (b : Broker) (s : SessionRef) (t : Bytes) :
    (b.subscribe s t).sessions_ = b.sessions_ := by
  simp only [Broker.subscribe]
  split <;> rfl

theorem subscribe_apply (b : Broker) (s : SessionRef) (t k : Bytes) :
    (b.subscribe s t).topic_subscribers_ k
      = if k = t then
          some (if s ∈ (b.topic_subscribers_ t).getD [] then (b.topic_subscribers_ t).getD []
                else (b.topic_subscribers_ t).getD [] ++ [s])
        else b.topic_subscribers_ k := by
  simp only [Broker.subscribe, UnorderedMap.find]
  rcases hsub : b.topic_subscribers_ t with _ | l
  · by_cases hk : k = t <;> simp [UnorderedMap.assign, hk]
  · by_cases hmem : s ∈ l <;> by_cases hk : k = t <;>
      simp [UnorderedMap.assign, hk, hmem, hsub]

theorem isEmpty_eq_false_of_ne_nil {α : Type} (l : List α) (h : l ≠ []) :
    l.isEmpty = false := by
  cases l with
  | nil => exact absurd rfl h
  | cons a l => rfl

theorem unsubscribe_sessions (b : Broker) (s : SessionRef) (t : Bytes) :
    (b.unsubscribe s t).sessions_ = b.sessions_ := by
  simp only [Broker.unsubscribe]
  split
  · split <;> rfl
  · rfl

theorem unsubscribe_apply (b : Broker) (s : SessionRef) (t k : Bytes) :
    (b.unsubscribe s t).topic_subscribers_ k
      = if k = t then
          (match b.topic_subscribers_ t with
           | some l => if (eraseRemove s l).isEmpty then none else some (eraseRemove s l)
           | none => none)
        else b.topic_subscribers_ k := by
  simp only [Broker.unsubscribe, UnorderedMap.find]
  rcases hsub : b.topic_subscribers_ t with _ | l
  · by_cases hk : k = t <;> simp [hk, hsub]
  · by_cases he : (eraseRemove s l).isEmpty = true <;> by_cases hk : k = t <;>
      simp [UnorderedMap.assign, UnorderedMap.erase, hk, he]

theorem forEachValue_apply {κ ν : Type} (m : UnorderedMap κ ν) (f : ν → ν) (k : κ) :
    m.forEachValue f k = (m k).map f := rfl

theorem eraseRemove_nodup (x : SessionRef) (l : List SessionRef) (h : l.Nodup) :
    (eraseRemove x l).Nodup :=
  h.filter _

theorem not_mem_eraseRemove (x : SessionRef) (l : List SessionRef) : x ∉ eraseRemove x l := by
  simp [eraseRemove, List.mem_filter]

/-- Each registry call keeps every subscriber list free of repeated sessions. -/
theorem nodup_register_session (b : Broker) (heap : SessionRef → Session) (s : SessionRef)
    (h : ∀ t l, b.topic_subscribers_ t = some l → l.Nodup) :
    ∀ t l, (b.register_session heap s).topic_subscribers_ t = some l → l.Nodup := by
  intro t l
  simp only [Broker.register_session, UnorderedMap.find]
  rcases b.sessions_ (heap s).client_id_ with _ | old
  · exact h t l
  · simp only [forEachValue_apply]
    rcases hsub : b.topic_subscribers_ t with _ | l0
    · simp
    · simp only [Option.map_some', Option.some.injEq]
      intro hl
      rw [← hl]
      exact eraseRemove_nodup old l0 (h t l0 hsub)

theorem nodup_remove_session (b : Broker) (heap : SessionRef → Session) (s : SessionRef)
    (h : ∀ t l, b.topic_subscribers_ t = some l → l.Nodup) :
    ∀ t l, (b.remove_session heap s).topic_subscribers_ t = some l → l.Nodup := by
  intro t l
  simp only [Broker.remove_session]
  split
  · exact h t l
  · simp only [forEachValue_apply]
    rcases hsub : b.topic_subscribers_ t with _ | l0
    · simp
    · simp only [Option.map_some', Option.some.injEq]
      intro hl
      rw [← hl]
      exact eraseRemove_nodup s l0 (h t l0 hsub)

theorem nodup_subscribe (b : Broker) (s : SessionRef) (topic : Bytes)
    (h : ∀ t l, b.topic_subscribers_ t = some l → l.Nodup) :
    ∀ t l, (b.subscribe s topic).topic_subscribers_ t = some l → l.Nodup := by
  intro t l
  rw [subscribe_apply]
  by_cases ht : t = topic
  · rw [if_pos ht]
    have hold : ((b.topic_subscribers_ topic).getD []).Nodup := by
      rcases hsub : b.topic_subscribers_ topic with _ | l0
      · simp
      · simpa using h topic l0 hsub
    intro hl
    rw [Option.some.injEq] at hl
    rw [← hl]
    split
    · exact hold
    · rename_i hmem
      exact List.Nodup.append hold (List.nodup_singleton s) (by simpa using hmem)
  · rw [if_neg ht]
    exact h t l

theorem nodup_unsubscribe (b : Broker) (s : SessionRef) (topic : Bytes)
    (h : ∀ t l, b.topic_subscribers_ t = some l → l.Nodup) :
    ∀ t l, (b.unsubscribe s topic).topic_subscribers_ t = some l → l.Nodup := by
  intro t l
  rw [unsubscribe_apply]
  by_cases ht : t = topic
  · rw [if_pos ht]
    rcases hsub : b.topic_subscribers_ topic with _ | l0
    · simp
    · simp only
      split
      · simp
      · intro hl
        rw [Option.some.injEq] at hl
        rw [← hl]
        exact eraseRemove_nodup s l0 (h topic l0 hsub)
  · rw [if_neg ht]
    exact h t l

/-! ## Properties of the packet codec -/

/-- C1: for every type, flags octet and payload of at most 65,535 octets, deserialize
(on any receiver) applied to the output of serialize returns true and leaves a packet
whose type, flags and payload are the original ones. -/
theorem C1_serialize_deserialize_roundtrip (self : Packet) (type : PacketType) (flags : Byte)
    (payload : Bytes) (h : payload.length ≤ 65535) :
    (self.deserialize (Packet.new type flags payload).serialize).1 = true ∧
    (self.deserialize (Packet.new type flags payload).serialize).2.type = type ∧
    (self.deserialize (Packet.new type flags payload).serialize).2.flags = flags ∧
    (self.deserialize (Packet.new type flags payload).serialize).2.payload = payload := by
  have hlen : toU16 payload.length = payload.length := by unfold toU16; omega
  have hrec := hi_lo_recombine payload.length (by omega)
  simp only [serialize_eq, Packet.new, hlen, Packet.deserialize, List.length_cons,
    List.getD_cons_zero, List.getD_cons_succ, hrec, List.drop_succ_cons, List.drop_zero,
    Packet.type, Packet.flags, Packet.payload]
  have h1 : ¬ (payload.length + 1 + 1 + 1 + 1 < 4) := by omega
  have h2 : ¬ (payload.length + 1 + 1 + 1 + 1 < 4 + payload.length) := by omega
  simp only [h1, h2, if_false, List.take_length, and_self]

/-- Witness for C1 at a payload of exactly 65,535 octets. -/
theorem C1_serialize_deserialize_roundtrip_witness :
    (Packet.empty.deserialize
      (Packet.new PacketType.PUB 0 (List.replicate 65535 7)).serialize).1 = true ∧
    (Packet.empty.deserialize
      (Packet.new PacketType.PUB 0 (List.replicate 65535 7)).serialize).2.type
        = PacketType.PUB ∧
    (Packet.empty.deserialize
      (Packet.new PacketType.PUB 0 (List.replicate 65535 7)).serialize).2.flags = 0 ∧
    (Packet.empty.deserialize
      (Packet.new PacketType.PUB 0 (List.replicate 65535 7)).serialize).2.payload
        = List.replicate 65535 7 :=
  C1_serialize_deserialize_roundtrip Packet.empty PacketType.PUB 0 (List.replicate 65535 7)
    (le_of_eq (List.length_replicate 65535 7))

/-- C2: for a payload of n ≤ 65,535 octets serialize returns exactly 4 + n octets: the
type, the flags, n / 256, n mod 256, then the payload unchanged; for the empty payload the
output is the four header octets alone. -/
theorem C2_serialize_layout (type : PacketType) (flags : Byte) (payload : Bytes)
    (h : payload.length ≤ 65535) :
    (Packet.new type flags payload).serialize
      = [type, flags, ⟨payload.length / 256, by omega⟩, ⟨payload.length % 256, by omega⟩]
        ++ payload ∧
    (Packet.new type flags payload).serialize.length = 4 + payload.length ∧
    (Packet.new type flags payload).serialize.drop 4 = payload ∧
    (Packet.new type flags []).serialize = [type, flags, 0, 0] := by
  have hlen : toU16 payload.length = payload.length := by unfold toU16; omega
  have hhi : toU8 (payload.length >>> 8) = ⟨payload.length / 256, by omega⟩ := by
    apply Fin.ext
    rw [toU8_val, shiftRight8_eq_div]
    show payload.length / 256 % 256 = payload.length / 256
    omega
  have hlo : toU8 (payload.length &&& 0xFF) = ⟨payload.length % 256, by omega⟩ := by
    apply Fin.ext
    rw [toU8_val, and_0xFF_eq_mod]
    show payload.length % 256 % 256 = payload.length % 256
    omega
  have hs : (Packet.new type flags payload).serialize
      = [type, flags, ⟨payload.length / 256, by omega⟩, ⟨payload.length % 256, by omega⟩]
        ++ payload := by
    rw [serialize_eq]
    simp only [Packet.new, hlen, hhi, hlo, List.cons_append, List.nil_append]
  refine ⟨hs, ?_, ?_, ?_⟩
  · rw [hs]; simp; omega
  · rw [hs]; simp
  · have h1 : toU8 (toU16 0 >>> 8) = 0 := by decide
    have h2 : toU8 (toU16 0 &&& 0xFF) = 0 := by decide
    rw [serialize_eq]
    simp only [Packet.new, List.length_nil, h1, h2]

/-- Witness for C2 at a three-octet payload. -/
theorem C2_serialize_layout_witness :
    (Packet.new PacketType.SUB 0 [1, 2, 3]).serialize
      = [PacketType.SUB, 0, ⟨[(1 : Byte), 2, 3].length / 256, by decide⟩,
          ⟨[(1 : Byte), 2, 3].length % 256, by decide⟩] ++ [1, 2, 3] ∧
    (Packet.new PacketType.SUB 0 [1, 2, 3]).serialize.length = 4 + [(1 : Byte), 2, 3].length ∧
    (Packet.new PacketType.SUB 0 [1, 2, 3]).serialize.drop 4 = [1, 2, 3] ∧
    (Packet.new PacketType.SUB 0 []).serialize = [PacketType.SUB, 0, 0, 0] :=
  C2_serialize_layout PacketType.SUB 0 [1, 2, 3] (by decide)

/-- A payload of exactly 65,536 octets: the length field wraps to 0, serialize still
appends the whole payload, and deserialize reads the result as a frame without payload. -/
theorem serialize_65536 (type : PacketType) (flags : Byte) (payload : Bytes)
    (hl : payload.length = 65536) :
    (Packet.new type flags payload).serialize = [type, flags, 0, 0] ++ payload ∧
    Packet.empty.deserialize (Packet.new type flags payload).serialize
      = (true, Packet.new type flags []) := by
  have h1 : toU8 (toU16 65536 >>> 8) = 0 := by decide
  have h2 : toU8 (toU16 65536 &&& 0xFF) = 0 := by decide
  have hs : (Packet.new type flags payload).serialize = [type, flags, 0, 0] ++ payload := by
    rw [serialize_eq]
    simp only [Packet.new, hl, h1, h2, List.cons_append, List.nil_append]
  refine ⟨hs, ?_⟩
  rw [hs]
  have h3 : toU16 (((0 : Byte).val <<< 8) ||| (0 : Byte).val) = 0 := by decide
  have h4 : ¬ (65536 + 1 + 1 + 1 + 1 < 4) := by decide
  have h5 : ¬ (65536 + 1 + 1 + 1 + 1 < 4 + 0) := by decide
  simp only [Packet.deserialize, List.cons_append, List.nil_append, List.length_cons, hl,
    List.getD_cons_zero, List.getD_cons_succ, h3, h4, h5, if_false,
    List.take_zero, List.drop_succ_cons, List.drop_zero, Packet.new, List.length_nil]
  rfl

/-- C3, refuted as stated: for the payload of 65,536 zero octets, constructing a PUB packet
and serializing it reports nothing and returns a buffer, the header 3, 0, 0, 0 followed by
all 65,536 octets, and deserialize accepts that buffer as a frame with an empty payload. -/
theorem C3_oversized_payload_counterexample :
    65535 < (List.replicate 65536 (0 : Byte)).length ∧
    (Packet.new PacketType.PUB 0 (List.replicate 65536 0)).serialize
      = [3, 0, 0, 0] ++ List.replicate 65536 0 ∧
    Packet.empty.deserialize (Packet.new PacketType.PUB 0 (List.replicate 65536 0)).serialize
      = (true, Packet.new PacketType.PUB 0 []) :=
  ⟨lt_of_lt_of_eq (by decide) (List.length_replicate 65536 (0 : Byte)).symm,
   serialize_65536 PacketType.PUB 0 (List.replicate 65536 0) (List.length_replicate 65536 0)⟩

/-- C3, amended: encoding does not fail on an oversized payload. For every payload of
n > 65,535 octets the constructor stores n mod 65536 (which is not n) in the length field,
and serialize returns 4 + n octets: type, flags, the two octets of n mod 65536, then the
whole payload. -/
theorem C3_oversized_payload_is_truncated_length (type : PacketType) (flags : Byte)
    (payload : Bytes) (h : 65535 < payload.length) :
    (Packet.new type flags payload).header_.payload_length = payload.length % 65536 ∧
    (Packet.new type flags payload).header_.payload_length ≠ payload.length ∧
    (Packet.new type flags payload).serialize
      = [type, flags, toU8 (payload.length % 65536 / 256), toU8 (payload.length % 256)]
        ++ payload ∧
    (Packet.new type flags payload).serialize.length = 4 + payload.length := by
  have hs : (Packet.new type flags payload).serialize
      = [type, flags, toU8 (payload.length % 65536 / 256), toU8 (payload.length % 256)]
        ++ payload := by
    have hlo : toU8 (payload.length % 65536 % 256) = toU8 (payload.length % 256) := by
      apply Fin.ext
      rw [toU8_val, toU8_val]
      omega
    rw [serialize_eq]
    simp only [Packet.new, toU16, shiftRight8_eq_div, and_0xFF_eq_mod, hlo, List.cons_append,
      List.nil_append]
  refine ⟨rfl, ?_, hs, ?_⟩
  · show payload.length % 65536 ≠ payload.length
    omega
  · rw [hs]; simp; omega

/-- Witness for the amended C3 at the payload of 65,536 zero octets. -/
theorem C3_oversized_payload_is_truncated_length_witness :
    (Packet.new PacketType.PUB 0 (List.replicate 65536 0)).header_.payload_length
      = (List.replicate 65536 (0 : Byte)).length % 65536 ∧
    (Packet.new PacketType.PUB 0 (List.replicate 65536 0)).header_.payload_length
      ≠ (List.replicate 65536 (0 : Byte)).length ∧
    (Packet.new PacketType.PUB 0 (List.replicate 65536 0)).serialize
      = [PacketType.PUB, 0, toU8 ((List.replicate 65536 (0 : Byte)).length % 65536 / 256),
          toU8 ((List.replicate 65536 (0 : Byte)).length % 256)]
        ++ List.replicate 65536 0 ∧
    (Packet.new PacketType.PUB 0 (List.replicate 65536 0)).serialize.length
      = 4 + (List.replicate 65536 (0 : Byte)).length :=
  C3_oversized_payload_is_truncated_length PacketType.PUB 0 (List.replicate 65536 0)
    (lt_of_lt_of_eq (by decide) (List.length_replicate 65536 (0 : Byte)).symm)

/-! ## Properties of the session handlers -/

/-- C4: for a session that is not yet authenticated and a CONN packet with a non-empty
payload, process_packet sets client_id to the payload, sets the authenticated flag, appends
exactly one write to the trace, the CONNACK frame 2, 0, 0, 0 (flags 0, empty payload) on
this session, and leaves the sessions map sending that client id to this session. -/
theorem C4_connect_registers_and_acks (w : World) (self : SessionRef) (packet : Packet)
    (hauth : (w.heap self).is_authenticated_ = false)
    (htype : packet.type = PacketType.CONN) (hne : packet.payload ≠ []) :
    ((Session.process_packet w self packet).heap self).client_id_ = packet.payload ∧
    ((Session.process_packet w self packet).heap self).is_authenticated_ = true ∧
    (Session.process_packet w self packet).writes
      = w.writes ++ [(self, (Packet.new PacketType.CONNACK 0 []).serialize)] ∧
    (Packet.new PacketType.CONNACK 0 []).serialize = [2, 0, 0, 0] ∧
    (Session.process_packet w self packet).broker.sessions_.find packet.payload
      = some self := by
  have _ := hauth
  rw [process_packet_CONN w self packet htype, handle_connect_nonempty w self packet hne]
  refine ⟨?_, ?_, rfl, ack_frame PacketType.CONNACK, ?_⟩
  · simp
  · simp
  · simp [Broker.register_session, UnorderedMap.find, UnorderedMap.assign]

/-- Witness for C4: session 0 sends CONN with client id "a" to a fresh broker. -/
theorem C4_connect_registers_and_acks_witness :
    ((Session.process_packet World.init 0 (Packet.new PacketType.CONN 0 [97])).heap 0).client_id_
      = (Packet.new PacketType.CONN 0 [97]).payload ∧
    ((Session.process_packet World.init 0
      (Packet.new PacketType.CONN 0 [97])).heap 0).is_authenticated_ = true ∧
    (Session.process_packet World.init 0 (Packet.new PacketType.CONN 0 [97])).writes
      = World.init.writes ++ [(0, (Packet.new PacketType.CONNACK 0 []).serialize)] ∧
    (Packet.new PacketType.CONNACK 0 []).serialize = [2, 0, 0, 0] ∧
    (Session.process_packet World.init 0 (Packet.new PacketType.CONN 0 [97])).broker.sessions_.find
      (Packet.new PacketType.CONN 0 [97]).payload = some 0 :=
  C4_connect_registers_and_acks World.init 0 (Packet.new PacketType.CONN 0 [97])
    rfl rfl (by decide)

/-- C5: for a session that has not received a valid CONN (not authenticated, empty client
id) and a PUB, SUB or UNSUB packet with any payload, process_packet returns the state it
was given: nothing is written, the socket stays as it was, the session stays
unauthenticated with an empty client id, and both registry maps are unchanged. -/
theorem C5_unauthenticated_request_dropped (w : World) (self : SessionRef) (packet : Packet)
    (hauth : (w.heap self).is_authenticated_ = false)
    (hid : (w.heap self).client_id_ = [])
    (htype : packet.type = PacketType.PUB ∨ packet.type = PacketType.SUB ∨
      packet.type = PacketType.UNSUB) :
    Session.process_packet w self packet = w ∧
    (Session.process_packet w self packet).writes = w.writes ∧
    ((Session.process_packet w self packet).heap self).socket_open
      = (w.heap self).socket_open ∧
    ((Session.process_packet w self packet).heap self).is_authenticated_ = false ∧
    ((Session.process_packet w self packet).heap self).client_id_ = [] ∧
    (Session.process_packet w self packet).broker.sessions_ = w.broker.sessions_ ∧
    (Session.process_packet w self packet).broker.topic_subscribers_
      = w.broker.topic_subscribers_ := by
  have hw : Session.process_packet w self packet = w := by
    rcases htype with h | h | h
    · rw [process_packet_PUB w self packet h]
      simp [Session.handle_publish, hauth]
    · rw [process_packet_SUB w self packet h]
      simp [Session.handle_subscribe, hauth]
    · rw [process_packet_UNSUB w self packet h]
      simp [Session.handle_unsubscribe, hauth]
  rw [hw]
  exact ⟨rfl, rfl, rfl, hauth, hid, rfl, rfl⟩

/-- Witness for C5: a PUB to topic "t" with message "m" as the first packet of session 0. -/
theorem C5_unauthenticated_request_dropped_witness :
    Session.process_packet World.init 0 (Packet.new PacketType.PUB 0 [1, 116, 109])
      = World.init ∧
    (Session.process_packet World.init 0 (Packet.new PacketType.PUB 0 [1, 116, 109])).writes
      = World.init.writes ∧
    ((Session.process_packet World.init 0
      (Packet.new PacketType.PUB 0 [1, 116, 109])).heap 0).socket_open
      = (World.init.heap 0).socket_open ∧
    ((Session.process_packet World.init 0
      (Packet.new PacketType.PUB 0 [1, 116, 109])).heap 0).is_authenticated_ = false ∧
    ((Session.process_packet World.init 0
      (Packet.new PacketType.PUB 0 [1, 116, 109])).heap 0).client_id_ = [] ∧
    (Session.process_packet World.init 0
      (Packet.new PacketType.PUB 0 [1, 116, 109])).broker.sessions_
      = World.init.broker.sessions_ ∧
    (Session.process_packet World.init 0
      (Packet.new PacketType.PUB 0 [1, 116, 109])).broker.topic_subscribers_
      = World.init.broker.topic_subscribers_ :=
  C5_unauthenticated_request_dropped World.init 0 (Packet.new PacketType.PUB 0 [1, 116, 109])
    rfl rfl (Or.inl rfl)

/-- C6, refuted as stated: session 0 is authenticated and receives a PUB whose payload is
the length octet 1 followed by the single topic octet "t". The length octet is not larger
than the number of octets after it, yet handle_publish writes nothing: no PUBACK, and the
trace is not the one the claim describes. -/
theorem C6_empty_message_counterexample :
    (World.oneClient.heap 0).is_authenticated_ = true ∧
    (Packet.new PacketType.PUB 0 [1, 116]).payload = (1 : Byte) :: [116] ∧
    (1 : Byte).val ≤ [(116 : Byte)].length ∧
    (Session.handle_publish World.oneClient 0 (Packet.new PacketType.PUB 0 [1, 116])).writes
      = World.oneClient.writes ∧
    (Session.handle_publish World.oneClient 0 (Packet.new PacketType.PUB 0 [1, 116])).writes
      ≠ (Broker.publish World.oneClient [116] []).writes
          ++ [(0, (Packet.new PacketType.PUBACK 0 []).serialize)] := by
  decide

/-- C6, amended: for an authenticated session and a PUB packet whose payload starts with
a topic-length octet N that is strictly smaller than the number of payload octets after it,
handle_publish calls Broker::publish with topic = the N octets after the length octet and
message = all remaining octets (at least one), then sends exactly one PUBACK (the frame
4, 0, 0, 0) on this session; the sessions and the registry stay as they were. -/
theorem C6_publish_then_puback (w : World) (self : SessionRef) (packet : Packet)
    (N : Byte) (rest : Bytes)
    (hauth : (w.heap self).is_authenticated_ = true)
    (htype : packet.type = PacketType.PUB)
    (hpayload : packet.payload = N :: rest) (hN : N.val < rest.length) :
    Session.process_packet w self packet = Session.handle_publish w self packet ∧
    Session.handle_publish w self packet
      = Session.send_ack (Broker.publish w (rest.take N.val) (rest.drop N.val)) self
          PacketType.PUBACK 0 ∧
    (Session.handle_publish w self packet).writes
      = (Broker.publish w (rest.take N.val) (rest.drop N.val)).writes
          ++ [(self, (Packet.new PacketType.PUBACK 0 []).serialize)] ∧
    (Packet.new PacketType.PUBACK 0 []).serialize = [4, 0, 0, 0] ∧
    (rest.take N.val).length = N.val ∧
    rest.drop N.val ≠ [] ∧
    (Session.handle_publish w self packet).heap = w.heap ∧
    (Session.handle_publish w self packet).broker = w.broker := by
  have h1 : (N :: rest).length > 1 := by simp; omega
  have h2 : (N :: rest).length > N.val + 1 := by simp; omega
  have hp : Session.handle_publish w self packet
      = Session.send_ack (Broker.publish w (rest.take N.val) (rest.drop N.val)) self
          PacketType.PUBACK 0 := by
    unfold Session.handle_publish
    simp only [hauth, Bool.not_true, Bool.false_eq_true, if_false, hpayload, h1, h2, if_true,
      List.getD_cons_zero, List.drop_succ_cons, List.drop_zero]
    rw [Nat.add_comm 1 N.val, List.drop_succ_cons]
  refine ⟨process_packet_PUB w self packet htype, hp, ?_, ack_frame PacketType.PUBACK, ?_,
    ?_, ?_, ?_⟩
  · rw [hp, send_ack_zero]
  · rw [List.length_take]; omega
  · intro h
    have := congrArg List.length h
    rw [List.length_drop] at this
    simp at this
    omega
  · rw [hp, send_ack_zero, publish_eq]
  · rw [hp, send_ack_zero, publish_eq]

/-- Witness for the amended C6: authenticated session 0 publishes "m" to topic "t". -/
theorem C6_publish_then_puback_witness :
    Session.process_packet World.oneClient 0 (Packet.new PacketType.PUB 0 [1, 116, 109])
      = Session.handle_publish World.oneClient 0 (Packet.new PacketType.PUB 0 [1, 116, 109]) ∧
    Session.handle_publish World.oneClient 0 (Packet.new PacketType.PUB 0 [1, 116, 109])
      = Session.send_ack
          (Broker.publish World.oneClient (List.take (1 : Byte).val [116, 109])
            (List.drop (1 : Byte).val [116, 109])) 0 PacketType.PUBACK 0 ∧
    (Session.handle_publish World.oneClient 0 (Packet.new PacketType.PUB 0 [1, 116, 109])).writes
      = (Broker.publish World.oneClient (List.take (1 : Byte).val [116, 109])
            (List.drop (1 : Byte).val [116, 109])).writes
          ++ [(0, (Packet.new PacketType.PUBACK 0 []).serialize)] ∧
    (Packet.new PacketType.PUBACK 0 []).serialize = [4, 0, 0, 0] ∧
    (List.take (1 : Byte).val [(116 : Byte), 109]).length = (1 : Byte).val ∧
    List.drop (1 : Byte).val [(116 : Byte), 109] ≠ [] ∧
    (Session.handle_publish World.oneClient 0 (Packet.new PacketType.PUB 0 [1, 116, 109])).heap
      = World.oneClient.heap ∧
    (Session.handle_publish World.oneClient 0 (Packet.new PacketType.PUB 0 [1, 116, 109])).broker
      = World.oneClient.broker :=
  C6_publish_then_puback World.oneClient 0 (Packet.new PacketType.PUB 0 [1, 116, 109])
    1 [116, 109] (by decide) rfl rfl (by decide)

/-- C7: for an authenticated session and a PUB packet whose payload is non-empty and whose
first octet (the topic length) is greater than the number of octets after it,
handle_publish, and process_packet with it, return the state they were given: no call of
Broker::publish, no PUBACK, the socket not closed, session and registry unchanged. -/
theorem C7_malformed_publish_dropped (w : World) (self : SessionRef) (packet : Packet)
    (N : Byte) (rest : Bytes)
    (hauth : (w.heap self).is_authenticated_ = true)
    (htype : packet.type = PacketType.PUB)
    (hpayload : packet.payload = N :: rest) (hN : rest.length < N.val) :
    Session.handle_publish w self packet = w ∧
    Session.process_packet w self packet = w ∧
    (Session.process_packet w self packet).writes = w.writes ∧
    ((Session.process_packet w self packet).heap self).socket_open
      = (w.heap self).socket_open := by
  have h2 : ¬ ((N :: rest).length > N.val + 1) := by simp; omega
  have hp : Session.handle_publish w self packet = w := by
    unfold Session.handle_publish
    simp only [hauth, Bool.not_true, Bool.false_eq_true, if_false, hpayload,
      List.getD_cons_zero, h2, ite_self]
  have hw : Session.process_packet w self packet = w := by
    rw [process_packet_PUB w self packet htype, hp]
  rw [hw]
  exact ⟨hp, rfl, rfl, rfl⟩

/-- Witness for C7: the four-octet payload 0x10, 1, 2, 3 sent by authenticated session 0. -/
theorem C7_malformed_publish_dropped_witness :
    Session.handle_publish World.oneClient 0 (Packet.new PacketType.PUB 0 [0x10, 1, 2, 3])
      = World.oneClient ∧
    Session.process_packet World.oneClient 0 (Packet.new PacketType.PUB 0 [0x10, 1, 2, 3])
      = World.oneClient ∧
    (Session.process_packet World.oneClient 0
      (Packet.new PacketType.PUB 0 [0x10, 1, 2, 3])).writes = World.oneClient.writes ∧
    ((Session.process_packet World.oneClient 0
      (Packet.new PacketType.PUB 0 [0x10, 1, 2, 3])).heap 0).socket_open
      = (World.oneClient.heap 0).socket_open :=
  C7_malformed_publish_dropped World.oneClient 0 (Packet.new PacketType.PUB 0 [0x10, 1, 2, 3])
    0x10 [1, 2, 3] (by decide) rfl rfl (by decide)

/-- C8: for an authenticated session and a SUB packet. When the payload is non-empty, the
session is afterwards in the subscriber list of the topic equal to the payload and exactly
one write is appended, the SUBACK frame 6, 0, 0, 0 on this session. When the payload is
empty, the state is returned as given: no subscription, topic_subscribers unchanged, no
SUBACK. -/
theorem C8_subscribe_handler (w : World) (self : SessionRef) (packet : Packet)
    (hauth : (w.heap self).is_authenticated_ = true)
    (htype : packet.type = PacketType.SUB) :
    (packet.payload ≠ [] →
      (∃ l, (Session.process_packet w self packet).broker.topic_subscribers_.find
              packet.payload = some l ∧ self ∈ l) ∧
      (Session.process_packet w self packet).writes
        = w.writes ++ [(self, (Packet.new PacketType.SUBACK 0 []).serialize)] ∧
      (Packet.new PacketType.SUBACK 0 []).serialize = [6, 0, 0, 0]) ∧
    (packet.payload = [] →
      Session.process_packet w self packet = w ∧
      (Session.process_packet w self packet).broker.topic_subscribers_
        = w.broker.topic_subscribers_ ∧
      (Session.process_packet w self packet).writes = w.writes) := by
  rw [process_packet_SUB w self packet htype]
  constructor
  · intro hne
    have he := isEmpty_eq_false_of_ne_nil packet.payload hne
    have hs : Session.handle_subscribe w self packet
        = Session.send_ack (World.mk w.heap (w.broker.subscribe self packet.payload) w.writes)
            self PacketType.SUBACK 0 := by
      unfold Session.handle_subscribe
      simp only [hauth, Bool.not_true, Bool.false_eq_true, if_false, he, Bool.not_false,
        if_true]
    rw [hs, send_ack_zero]
    refine ⟨?_, rfl, ack_frame PacketType.SUBACK⟩
    simp only [UnorderedMap.find, subscribe_apply, if_true]
    refine ⟨_, rfl, ?_⟩
    split
    · assumption
    · simp
  · intro hempty
    have hs : Session.handle_subscribe w self packet = w := by
      unfold Session.handle_subscribe
      simp [hauth, hempty]
    rw [hs]
    exact ⟨rfl, rfl, rfl⟩

/-- Witness for C8: authenticated session 0 subscribes to topic "t". -/
theorem C8_subscribe_handler_witness :
    ((Packet.new PacketType.SUB 0 [116]).payload ≠ [] →
      (∃ l, (Session.process_packet World.oneClient 0
              (Packet.new PacketType.SUB 0 [116])).broker.topic_subscribers_.find
              (Packet.new PacketType.SUB 0 [116]).payload = some l ∧ 0 ∈ l) ∧
      (Session.process_packet World.oneClient 0 (Packet.new PacketType.SUB 0 [116])).writes
        = World.oneClient.writes ++ [(0, (Packet.new PacketType.SUBACK 0 []).serialize)] ∧
      (Packet.new PacketType.SUBACK 0 []).serialize = [6, 0, 0, 0]) ∧
    ((Packet.new PacketType.SUB 0 [116]).payload = [] →
      Session.process_packet World.oneClient 0 (Packet.new PacketType.SUB 0 [116])
        = World.oneClient ∧
      (Session.process_packet World.oneClient 0
        (Packet.new PacketType.SUB 0 [116])).broker.topic_subscribers_
        = World.oneClient.broker.topic_subscribers_ ∧
      (Session.process_packet World.oneClient 0 (Packet.new PacketType.SUB 0 [116])).writes
        = World.oneClient.writes) :=
  C8_subscribe_handler World.oneClient 0 (Packet.new PacketType.SUB 0 [116]) (by decide) rfl

/-! ## Properties of the broker registry -/

/-- C9: Broker::subscribe is idempotent: the registry after subscribe(s, t); subscribe(s, t)
is the registry after one subscribe(s, t). The call appends s at the end of the list of t
exactly when s was not in that list (a missing entry counting as the empty list) and
otherwise leaves the list as it is; every other topic and the sessions map are unchanged. -/
theorem C9_subscribe_idempotent (b : Broker) (s : SessionRef) (t : Bytes) :
    (b.subscribe s t).subscribe s t = b.subscribe s t ∧
    ((b.subscribe s t).topic_subscribers_.find t
        = some ((b.topic_subscribers_.find t).getD [] ++ [s])
      ↔ s ∉ (b.topic_subscribers_.find t).getD []) ∧
    (s ∈ (b.topic_subscribers_.find t).getD [] →
      (b.subscribe s t).topic_subscribers_.find t = b.topic_subscribers_.find t) ∧
    (∀ t', t' ≠ t →
      (b.subscribe s t).topic_subscribers_.find t' = b.topic_subscribers_.find t') ∧
    (b.subscribe s t).sessions_ = b.sessions_ := by
  simp only [UnorderedMap.find]
  refine ⟨?_, ?_, ?_, ?_, subscribe_sessions b s t⟩
  · have hses : ((b.subscribe s t).subscribe s t).sessions_ = (b.subscribe s t).sessions_ :=
      subscribe_sessions _ s t
    have htop : ((b.subscribe s t).subscribe s t).topic_subscribers_
        = (b.subscribe s t).topic_subscribers_ := by
      funext k
      rw [subscribe_apply (b.subscribe s t) s t k]
      by_cases hk : k = t
      · rw [if_pos hk, hk, subscribe_apply b s t t, if_pos rfl]
        by_cases hmem : s ∈ (b.topic_subscribers_ t).getD [] <;> simp [hmem]
      · rw [if_neg hk]
    generalize (b.subscribe s t).subscribe s t = b2 at hses htop
    generalize b.subscribe s t = b1 at hses htop
    cases b1
    cases b2
    simp only at hses htop
    rw [hses, htop]
  · rw [subscribe_apply, if_pos rfl]
    by_cases hmem : s ∈ (b.topic_subscribers_ t).getD [] <;> simp [hmem]
  · intro hmem
    rw [subscribe_apply, if_pos rfl, if_pos hmem]
    rcases hsub : b.topic_subscribers_ t with _ | l
    · rw [hsub] at hmem; simp at hmem
    · rfl
  · intro t' ht'
    rw [subscribe_apply, if_neg ht']

/-- C10: in every registry state reachable from the empty registry by calls of
register_session, remove_session, subscribe, unsubscribe and publish, every subscriber
list of every topic holds each session at most once. -/
theorem C10_subscriber_lists_nodup (b : Broker) (h : b.Reachable) (topic : Bytes)
    (l : List SessionRef) (hl : b.topic_subscribers_.find topic = some l) : l.Nodup := by
  have key : ∀ t l, b.topic_subscribers_ t = some l → l.Nodup := by
    clear hl
    induction h with
    | empty => intro t l ht; simp [Broker.empty, UnorderedMap.empty] at ht
    | register_session heap session _ ih => exact nodup_register_session _ heap session ih
    | remove_session heap session _ ih => exact nodup_remove_session _ heap session ih
    | subscribe session t _ ih => exact nodup_subscribe _ session t ih
    | unsubscribe session t _ ih => exact nodup_unsubscribe _ session t ih
    | publish heap writes t m _ ih => rw [publish_eq]; exact ih
  exact key topic l hl

/-- Witness for C10: sessions 0 and 1 subscribe to topic "t", session 0 twice. -/
theorem C10_subscriber_lists_nodup_witness :
    (((Broker.empty.subscribe 0 [116]).subscribe 1 [116]).subscribe 0 [116]).Reachable ∧
    (((Broker.empty.subscribe 0 [116]).subscribe 1 [116]).subscribe 0
      [116]).topic_subscribers_.find [116] = some [0, 1] ∧
    [0, 1].Nodup :=
  ⟨.subscribe 0 [116] (.subscribe 1 [116] (.subscribe 0 [116] .empty)), by decide,
   C10_subscriber_lists_nodup
     (((Broker.empty.subscribe 0 [116]).subscribe 1 [116]).subscribe 0 [116])
     (.subscribe 0 [116] (.subscribe 1 [116] (.subscribe 0 [116] .empty))) [116] [0, 1]
     (by decide)⟩

/-! ## Helper lemmas on removal from the registry -/

theorem broker_eq_of_maps (b1 b2 : Broker) (h1 : b1.sessions_ = b2.sessions_)
    (h2 : b1.topic_subscribers_ = b2.topic_subscribers_) : b1 = b2 := by
  cases b1
  cases b2
  simp only at h1 h2
  rw [h1, h2]

theorem eraseRemove_sublist (x : SessionRef) (l : List SessionRef) :
    (eraseRemove x l).Sublist l :=
  List.filter_sublist l

theorem count_eraseRemove_of_ne (x y : SessionRef) (l : List SessionRef) (h : y ≠ x) :
    List.count y (eraseRemove x l) = List.count y l := by
  unfold eraseRemove
  apply List.count_filter
  simp [h]

theorem eraseRemove_eq_self_of_not_mem (x : SessionRef) (l : List SessionRef) (h : x ∉ l) :
    eraseRemove x l = l := by
  unfold eraseRemove
  rw [List.filter_eq_self]
  intro a ha
  have hne : a ≠ x := fun hax => h (hax ▸ ha)
  simp [hne]

theorem eraseRemove_eq_nil_of_all_eq (x : SessionRef) (l : List SessionRef)
    (h : ∀ y ∈ l, y = x) : eraseRemove x l = [] := by
  unfold eraseRemove
  rw [List.filter_eq_nil_iff]
  intro a ha
  simp [h a ha]

theorem eraseRemove_ne_nil_of_other (x : SessionRef) (l : List SessionRef)
    (h : ∃ y ∈ l, y ≠ x) : eraseRemove x l ≠ [] := by
  obtain ⟨y, hy, hne⟩ := h
  have hmem : y ∈ eraseRemove x l := by
    unfold eraseRemove
    rw [List.mem_filter]
    exact ⟨hy, by simp [hne]⟩
  exact List.ne_nil_of_mem hmem

theorem register_session_apply (b : Broker) (heap : SessionRef → Session) (s : SessionRef)
    (k : Bytes) :
    (b.register_session heap s).topic_subscribers_ k
      = match b.sessions_ (heap s).client_id_ with
        | some old => (b.topic_subscribers_ k).map (eraseRemove old)
        | none => b.topic_subscribers_ k := by
  simp only [Broker.register_session, UnorderedMap.find]
  rcases b.sessions_ (heap s).client_id_ with _ | old <;> rfl

theorem remove_session_apply (b : Broker) (heap : SessionRef → Session) (s : SessionRef)
    (k : Bytes) (h : (heap s).client_id_ ≠ []) :
    (b.remove_session heap s).topic_subscribers_ k
      = (b.topic_subscribers_ k).map (eraseRemove s) := by
  simp only [Broker.remove_session, isEmpty_eq_false_of_ne_nil _ h, Bool.false_eq_true,
    if_false]
  rfl

/-- C11, refuted as stated: the registry in which session 0 subscribed to "t" and was then
removed is reachable and keeps an entry for "t" with an empty list. Session 1 is not in
that list, yet unsubscribe(1, "t") erases the entry, so the topic_subscribers map after
the call is not the map before it. -/
theorem C11_emptied_entry_counterexample :
    Broker.emptiedTopic.Reachable ∧
    1 ∉ (Broker.emptiedTopic.topic_subscribers_.find [116]).getD [] ∧
    Broker.emptiedTopic.topic_subscribers_.find [116] = some [] ∧
    (Broker.emptiedTopic.unsubscribe 1 [116]).topic_subscribers_.find [116] = none ∧
    (Broker.emptiedTopic.unsubscribe 1 [116]).topic_subscribers_
      ≠ Broker.emptiedTopic.topic_subscribers_ := by
  refine ⟨.remove_session World.oneClient.heap 0 (.subscribe 0 [116] .empty), by decide,
    by decide, by decide, ?_⟩
  intro h
  have h1 := congrFun h [116]
  revert h1
  decide

/-- C11, amended: for every registry state, session s and topic t with s not in the
subscriber list of t (a missing entry counting as the empty list), unsubscribe(s, t)
leaves the sessions map and the subscriber list of every topic as they were; the whole
registry is unchanged unless t has an entry with an empty list, and in that case the
entry of t is erased and nothing else changes. -/
theorem C11_unsubscribe_absent_session (b : Broker) (s : SessionRef) (t : Bytes)
    (hnot : s ∉ (b.topic_subscribers_.find t).getD []) :
    (b.unsubscribe s t).sessions_ = b.sessions_ ∧
    (∀ k, ((b.unsubscribe s t).topic_subscribers_.find k).getD []
            = (b.topic_subscribers_.find k).getD []) ∧
    (∀ k, k ≠ t →
      (b.unsubscribe s t).topic_subscribers_.find k = b.topic_subscribers_.find k) ∧
    (b.topic_subscribers_.find t ≠ some [] → b.unsubscribe s t = b) ∧
    (b.topic_subscribers_.find t = some [] →
      (b.unsubscribe s t).topic_subscribers_.find t = none) := by
  simp only [UnorderedMap.find] at hnot ⊢
  have hother : ∀ k, k ≠ t →
      (b.unsubscribe s t).topic_subscribers_ k = b.topic_subscribers_ k := by
    intro k hk
    rw [unsubscribe_apply, if_neg hk]
  have hat : (b.unsubscribe s t).topic_subscribers_ t
      = if b.topic_subscribers_ t = some [] then none else b.topic_subscribers_ t := by
    rw [unsubscribe_apply, if_pos rfl]
    rcases hsub : b.topic_subscribers_ t with _ | l
    · simp
    · rw [hsub] at hnot
      simp only [Option.getD_some] at hnot
      simp only [eraseRemove_eq_self_of_not_mem s l hnot]
      cases l with
      | nil => simp
      | cons a l => simp
  refine ⟨unsubscribe_sessions b s t, ?_, hother, ?_, ?_⟩
  · intro k
    by_cases hk : k = t
    · rw [hk, hat]
      by_cases he : b.topic_subscribers_ t = some []
      · rw [if_pos he, he]; rfl
      · rw [if_neg he]
    · rw [hother k hk]
  · intro hne
    apply broker_eq_of_maps _ _ (unsubscribe_sessions b s t)
    funext k
    by_cases hk : k = t
    · rw [hk, hat, if_neg hne]
    · exact hother k hk
  · intro he
    rw [hat, if_pos he]

/-- Witness for the amended C11: session 1 unsubscribes from "t" in the registry where
only session 0 is subscribed to "t". -/
theorem C11_unsubscribe_absent_session_witness :
    ((Broker.empty.subscribe 0 [116]).unsubscribe 1 [116]).sessions_
      = (Broker.empty.subscribe 0 [116]).sessions_ ∧
    (∀ k, (((Broker.empty.subscribe 0 [116]).unsubscribe 1 [116]).topic_subscribers_.find
              k).getD []
            = ((Broker.empty.subscribe 0 [116]).topic_subscribers_.find k).getD []) ∧
    (∀ k, k ≠ [116] →
      ((Broker.empty.subscribe 0 [116]).unsubscribe 1 [116]).topic_subscribers_.find k
        = (Broker.empty.subscribe 0 [116]).topic_subscribers_.find k) ∧
    ((Broker.empty.subscribe 0 [116]).topic_subscribers_.find [116] ≠ some [] →
      (Broker.empty.subscribe 0 [116]).unsubscribe 1 [116] = Broker.empty.subscribe 0 [116]) ∧
    ((Broker.empty.subscribe 0 [116]).topic_subscribers_.find [116] = some [] →
      ((Broker.empty.subscribe 0 [116]).unsubscribe 1 [116]).topic_subscribers_.find [116]
        = none) :=
  C11_unsubscribe_absent_session (Broker.empty.subscribe 0 [116]) 1 [116] (by decide)

/-- C12: for every registry state, session s and topic t with s in the subscriber list l of
t: after unsubscribe(s, t) any list still stored for t does not hold s, is a sublist of l
(relative order kept) and holds every other session as often as l did; it is the list l
without s when some other session is in l, and the entry of t is gone when the list became
empty; every other topic and the sessions map are unchanged. -/
theorem C12_unsubscribe_member (b : Broker) (s : SessionRef) (t : Bytes)
    (l : List SessionRef) (hl : b.topic_subscribers_.find t = some l) (hmem : s ∈ l) :
    (∀ l', (b.unsubscribe s t).topic_subscribers_.find t = some l' →
      s ∉ l' ∧ l'.Sublist l ∧ (∀ x, x ≠ s → List.count x l' = List.count x l) ∧ l' ≠ []) ∧
    ((∃ x ∈ l, x ≠ s) →
      (b.unsubscribe s t).topic_subscribers_.find t = some (eraseRemove s l)) ∧
    ((∀ x ∈ l, x = s) → (b.unsubscribe s t).topic_subscribers_.find t = none) ∧
    (∀ k, k ≠ t →
      (b.unsubscribe s t).topic_subscribers_.find k = b.topic_subscribers_.find k) ∧
    (b.unsubscribe s t).sessions_ = b.sessions_ := by
  have _ := hmem
  simp only [UnorderedMap.find] at hl ⊢
  have hat : (b.unsubscribe s t).topic_subscribers_ t
      = if (eraseRemove s l).isEmpty then none else some (eraseRemove s l) := by
    rw [unsubscribe_apply, if_pos rfl, hl]
  refine ⟨?_, ?_, ?_, ?_, unsubscribe_sessions b s t⟩
  · intro l' hl'
    rw [hat] at hl'
    by_cases he : (eraseRemove s l).isEmpty = true
    · rw [if_pos he] at hl'
      exact absurd hl' (by simp)
    · rw [if_neg he, Option.some.injEq] at hl'
      rw [← hl']
      refine ⟨not_mem_eraseRemove s l, eraseRemove_sublist s l,
        fun x hx => count_eraseRemove_of_ne s x l hx, ?_⟩
      intro hnil
      exact he (by rw [hnil]; rfl)
  · intro hex
    have hne := eraseRemove_ne_nil_of_other s l hex
    rw [hat, isEmpty_eq_false_of_ne_nil _ hne]
    rfl
  · intro hall
    rw [hat, eraseRemove_eq_nil_of_all_eq s l hall]
    rfl
  · intro k hk
    rw [unsubscribe_apply, if_neg hk]

/-- Witness for C12: sessions 0, 1 and 2 are subscribed to "t" in this order and session 1
unsubscribes. -/
theorem C12_unsubscribe_member_witness :
    (∀ l', ((((Broker.empty.subscribe 0 [116]).subscribe 1 [116]).subscribe 2
        [116]).unsubscribe 1 [116]).topic_subscribers_.find [116] = some l' →
      1 ∉ l' ∧ l'.Sublist [0, 1, 2] ∧
      (∀ x, x ≠ 1 → List.count x l' = List.count x [0, 1, 2]) ∧ l' ≠ []) ∧
    ((∃ x ∈ [0, 1, 2], x ≠ 1) →
      ((((Broker.empty.subscribe 0 [116]).subscribe 1 [116]).subscribe 2
        [116]).unsubscribe 1 [116]).topic_subscribers_.find [116]
        = some (eraseRemove 1 [0, 1, 2])) ∧
    ((∀ x ∈ [0, 1, 2], x = 1) →
      ((((Broker.empty.subscribe 0 [116]).subscribe 1 [116]).subscribe 2
        [116]).unsubscribe 1 [116]).topic_subscribers_.find [116] = none) ∧
    (∀ k, k ≠ [116] →
      ((((Broker.empty.subscribe 0 [116]).subscribe 1 [116]).subscribe 2
        [116]).unsubscribe 1 [116]).topic_subscribers_.find k
        = (((Broker.empty.subscribe 0 [116]).subscribe 1 [116]).subscribe 2
            [116]).topic_subscribers_.find k) ∧
    ((((Broker.empty.subscribe 0 [116]).subscribe 1 [116]).subscribe 2
        [116]).unsubscribe 1 [116]).sessions_
      = (((Broker.empty.subscribe 0 [116]).subscribe 1 [116]).subscribe 2 [116]).sessions_ :=
  C12_unsubscribe_member
    (((Broker.empty.subscribe 0 [116]).subscribe 1 [116]).subscribe 2 [116]) 1 [116]
    [0, 1, 2] (by decide) (by decide)

/-- C13: for every registry state in which client id c maps to a session old, and every
other session s whose client id is c: after register_session(s) the sessions map sends c
to s and keeps every other key, old is in no subscriber list, and every topic keeps its
entry with a list that is a sublist of the earlier one (relative order kept) and holds
every session other than old as often as before. -/
theorem C13_register_displaces_old (b : Broker) (heap : SessionRef → Session)
    (s old : SessionRef) (c : Bytes)
    (hc : (heap s).client_id_ = c) (hold : b.sessions_.find c = some old) (hne : s ≠ old) :
    (b.register_session heap s).sessions_.find c = some s ∧
    (∀ k, k ≠ c → (b.register_session heap s).sessions_.find k = b.sessions_.find k) ∧
    (∀ t l', (b.register_session heap s).topic_subscribers_.find t = some l' → old ∉ l') ∧
    (∀ t l, b.topic_subscribers_.find t = some l →
      ∃ l', (b.register_session heap s).topic_subscribers_.find t = some l' ∧
        l'.Sublist l ∧ ∀ x, x ≠ old → List.count x l' = List.count x l) ∧
    (∀ t, b.topic_subscribers_.find t = none →
      (b.register_session heap s).topic_subscribers_.find t = none) := by
  have _ := hne
  simp only [UnorderedMap.find] at hold ⊢
  have htop : ∀ t, (b.register_session heap s).topic_subscribers_ t
      = (b.topic_subscribers_ t).map (eraseRemove old) := by
    intro t
    rw [register_session_apply, hc, hold]
  refine ⟨?_, ?_, ?_, ?_, ?_⟩
  · simp [Broker.register_session, UnorderedMap.assign, hc]
  · intro k hk
    simp [Broker.register_session, UnorderedMap.assign, hc, hk]
  · intro t l' hl'
    rw [htop] at hl'
    rcases hsub : b.topic_subscribers_ t with _ | l
    · rw [hsub] at hl'; simp at hl'
    · rw [hsub] at hl'
      simp only [Option.map_some', Option.some.injEq] at hl'
      rw [← hl']
      exact not_mem_eraseRemove old l
  · intro t l hl
    refine ⟨eraseRemove old l, ?_, eraseRemove_sublist old l,
      fun x hx => count_eraseRemove_of_ne old x l hx⟩
    rw [htop, hl]
    rfl
  · intro t hnone
    rw [htop, hnone]
    rfl

/-- Witness for C13: session 0 holds client id "x" and is subscribed to "t" together with
session 2; session 1, whose client id is also "x", registers. -/
theorem C13_register_displaces_old_witness :
    (Broker.twoSubscribers.register_session World.displaced.heap 1).sessions_.find [120]
      = some 1 ∧
    (∀ k, k ≠ [120] →
      (Broker.twoSubscribers.register_session World.displaced.heap 1).sessions_.find k
        = Broker.twoSubscribers.sessions_.find k) ∧
    (∀ t l', (Broker.twoSubscribers.register_session
        World.displaced.heap 1).topic_subscribers_.find t = some l' → 0 ∉ l') ∧
    (∀ t l, Broker.twoSubscribers.topic_subscribers_.find t = some l →
      ∃ l', (Broker.twoSubscribers.register_session
          World.displaced.heap 1).topic_subscribers_.find t = some l' ∧
        l'.Sublist l ∧ ∀ x, x ≠ 0 → List.count x l' = List.count x l) ∧
    (∀ t, Broker.twoSubscribers.topic_subscribers_.find t = none →
      (Broker.twoSubscribers.register_session
        World.displaced.heap 1).topic_subscribers_.find t = none) :=
  C13_register_displaces_old Broker.twoSubscribers World.displaced.heap 1 0 [120]
    (by decide) (by decide) (by decide)

/-- C14: for every registry state and every session s. When the client id of s is not
empty, after remove_session(s) the sessions map has no entry for that client id, s is in
no subscriber list, and a publish to a topic whose subscribers were all s sends nothing
(the state is returned as given). When the client id of s is empty, remove_session
returns the registry unchanged. -/
theorem C14_remove_session_clears (b : Broker) (heap : SessionRef → Session)
    (s : SessionRef) :
    ((heap s).client_id_ ≠ [] →
      (b.remove_session heap s).sessions_.find (heap s).client_id_ = none ∧
      (∀ t l', (b.remove_session heap s).topic_subscribers_.find t = some l' → s ∉ l') ∧
      (∀ t l writes message, b.topic_subscribers_.find t = some l → (∀ x ∈ l, x = s) →
        Broker.publish (World.mk heap (b.remove_session heap s) writes) t message
          = World.mk heap (b.remove_session heap s) writes)) ∧
    ((heap s).client_id_ = [] → b.remove_session heap s = b) := by
  simp only [UnorderedMap.find]
  constructor
  · intro hne
    refine ⟨?_, ?_, ?_⟩
    · simp [Broker.remove_session, isEmpty_eq_false_of_ne_nil _ hne, UnorderedMap.erase]
    · intro t l' hl'
      rw [remove_session_apply b heap s t hne] at hl'
      rcases hsub : b.topic_subscribers_ t with _ | l
      · rw [hsub] at hl'; simp at hl'
      · rw [hsub] at hl'
        simp only [Option.map_some', Option.some.injEq] at hl'
        rw [← hl']
        exact not_mem_eraseRemove s l
    · intro t l writes message hl hall
      rw [publish_eq]
      simp only [remove_session_apply b heap s t hne, hl, Option.map_some',
        eraseRemove_eq_nil_of_all_eq s l hall, Option.getD_some, List.map_nil,
        List.append_nil]
  · intro hempty
    simp [Broker.remove_session, hempty]

/-- Witness for C14: session 0, with client id "x", is registered and is the first of the
two subscribers of "t" when it is removed. -/
theorem C14_remove_session_clears_witness :
    (World.displaced.heap 0).client_id_ ≠ [] ∧
    (Broker.twoSubscribers.remove_session World.displaced.heap 0).sessions_.find
      (World.displaced.heap 0).client_id_ = none ∧
    (∀ t l', (Broker.twoSubscribers.remove_session
        World.displaced.heap 0).topic_subscribers_.find t = some l' → 0 ∉ l') ∧
    (∀ t l writes message, Broker.twoSubscribers.topic_subscribers_.find t = some l →
      (∀ x ∈ l, x = 0) →
      Broker.publish
          (World.mk World.displaced.heap
            (Broker.twoSubscribers.remove_session World.displaced.heap 0) writes) t message
        = World.mk World.displaced.heap
            (Broker.twoSubscribers.remove_session World.displaced.heap 0) writes) :=
  ⟨by decide,
   (C14_remove_session_clears Broker.twoSubscribers World.displaced.heap 0).1 (by decide)⟩

/-- What remove_session leaves alone: after remove_session(s) every key other than the
client id of s keeps its session, and every topic keeps its entry with a list that is a
sublist of the earlier one and holds every session other than s as often as before. -/
theorem remove_session_frame (b : Broker) (heap : SessionRef → Session) (s : SessionRef) :
    (∀ k, k ≠ (heap s).client_id_ →
      (b.remove_session heap s).sessions_.find k = b.sessions_.find k) ∧
    (∀ t l, b.topic_subscribers_.find t = some l →
      ∃ l', (b.remove_session heap s).topic_subscribers_.find t = some l' ∧
        l'.Sublist l ∧ ∀ x, x ≠ s → List.count x l' = List.count x l) ∧
    (∀ t, b.topic_subscribers_.find t = none →
      (b.remove_session heap s).topic_subscribers_.find t = none) := by
  simp only [UnorderedMap.find]
  by_cases hempty : (heap s).client_id_ = []
  · have hb : b.remove_session heap s = b := by simp [Broker.remove_session, hempty]
    rw [hb]
    exact ⟨fun _ _ => rfl, fun t l hl => ⟨l, hl, List.Sublist.refl l, fun _ _ => rfl⟩,
      fun _ h => h⟩
  · refine ⟨?_, ?_, ?_⟩
    · intro k hk
      simp [Broker.remove_session, isEmpty_eq_false_of_ne_nil _ hempty, UnorderedMap.erase,
        hk]
    · intro t l hl
      refine ⟨eraseRemove s l, ?_, eraseRemove_sublist s l,
        fun x hx => count_eraseRemove_of_ne s x l hx⟩
      rw [remove_session_apply b heap s t hempty, hl]
      rfl
    · intro t hnone
      rw [remove_session_apply b heap s t hempty, hnone]
      rfl

/-- C15, the code at the failing input: sessions 0 and 1 both connected with client id "x",
so the sessions map sends "x" to session 1 while session 0 still carries the id "x". When
the connection of session 0 closes, remove_session erases the key "x": session 1, which
is not the removed session, is no longer registered. -/
theorem C15_closing_displaced_unregisters_successor :
    World.Reachable [] World.displaced ∧
    World.displaced.broker.sessions_.find [120] = some 1 ∧
    (World.displaced.heap 0).client_id_ = [120] ∧
    World.Reachable [0] (Session.on_io_error World.displaced 0) ∧
    (Session.on_io_error World.displaced 0).broker
      = World.displaced.broker.remove_session World.displaced.heap 0 ∧
    (World.displaced.broker.remove_session World.displaced.heap 0).sessions_.find [120]
      = none :=
  ⟨.process_packet 1 _ _ _
      (.process_packet 0 _ _ _ .init (by decide) (by decide) (by decide))
      (by decide) (by decide) (by decide),
   by decide, by decide,
   .connection_closed 0
      (.process_packet 1 _ _ _
        (.process_packet 0 _ _ _ .init (by decide) (by decide) (by decide))
        (by decide) (by decide) (by decide))
      (by decide),
   rfl, by decide⟩

/-- C16, the code at the failing input: session 0 receives CONN with client id "a" and
then CONN with client id "b". The state is reachable, the sessions map still sends "a" to
session 0 (and "b" as well), and the client id of session 0 is now "b". -/
theorem C16_second_connect_leaves_stale_key :
    World.Reachable [] World.renamed ∧
    World.renamed.broker.sessions_.find [97] = some 0 ∧
    World.renamed.broker.sessions_.find [98] = some 0 ∧
    (World.renamed.heap 0).client_id_ = [98] ∧
    (World.renamed.heap 0).client_id_ ≠ [97] :=
  ⟨.process_packet 0 _ _ _
      (.process_packet 0 _ _ _ .init (by decide) (by decide) (by decide))
      (by decide) (by decide) (by decide),
   by decide, by decide, by decide, by decide⟩

/-- C17, the code at the failing input: sessions 0 and 1 both connected with client id "x",
session 1 subscribed to "t", then the connection of session 0 closed. The state is
reachable, session 1 is in the subscriber list of "t", and the sessions map has no entry
at all, so session 1 is the value of no entry. -/
theorem C17_subscriber_left_unregistered :
    World.Reachable [0] (Session.on_io_error World.displacedSubscribed 0) ∧
    (Session.on_io_error World.displacedSubscribed 0).broker.topic_subscribers_.find [116]
      = some [1] ∧
    (∀ k, (Session.on_io_error World.displacedSubscribed 0).broker.sessions_.find k
      = none) := by
  refine ⟨.connection_closed 0
      (.process_packet 1 _ _ _
        (.process_packet 1 _ _ _
          (.process_packet 0 _ _ _ .init (by decide) (by decide) (by decide))
          (by decide) (by decide) (by decide))
        (by decide) (by decide) (by decide))
      (by decide), by decide, ?_⟩
  have hs : (Session.on_io_error World.displacedSubscribed 0).broker.sessions_
      = ((UnorderedMap.empty.assign [120] 0).assign [120] 1).erase [120] := rfl
  intro k
  rw [hs]
  simp only [UnorderedMap.find, UnorderedMap.erase, UnorderedMap.assign, UnorderedMap.empty]
  split <;> simp_all

/-! ## Properties of the fan-out and of the PUB payload -/

theorem toU8_of_le (n : Nat) (h : n ≤ 255) : toU8 n = ⟨n, by omega⟩ := by
  apply Fin.ext
  rw [toU8_val]
  show n % 256 = n
  omega

theorem deserialize_serialize (self : Packet) (type : PacketType) (flags : Byte)
    (payload : Bytes) (h : payload.length ≤ 65535) :
    self.deserialize (Packet.new type flags payload).serialize
      = (true, Packet.new type flags payload) := by
  have hlen : toU16 payload.length = payload.length := by unfold toU16; omega
  have hrec := hi_lo_recombine payload.length (by omega)
  simp only [serialize_eq, Packet.new, hlen, Packet.deserialize, List.length_cons,
    List.getD_cons_zero, List.getD_cons_succ, hrec, List.drop_succ_cons, List.drop_zero]
  have h1 : ¬ (payload.length + 1 + 1 + 1 + 1 < 4) := by omega
  have h2 : ¬ (payload.length + 1 + 1 + 1 + 1 < 4 + payload.length) := by omega
  simp only [h1, h2, if_false, List.take_length]

theorem parse_pub_payload (n : Byte) (topic message : Bytes) (hn : n.val = topic.length)
    (hm : message ≠ []) :
    (n :: (topic ++ message)).length > 1 ∧
    (n :: (topic ++ message)).length > ((n :: (topic ++ message)).getD 0 0).val + 1 ∧
    ((n :: (topic ++ message)).drop 1).take ((n :: (topic ++ message)).getD 0 0).val
      = topic ∧
    (n :: (topic ++ message)).drop (1 + ((n :: (topic ++ message)).getD 0 0).val)
      = message := by
  have hpos : 0 < message.length := List.length_pos.mpr hm
  simp only [List.getD_cons_zero, List.length_cons, List.length_append, hn,
    List.drop_succ_cons, List.drop_zero, Nat.add_comm 1 topic.length]
  refine ⟨by omega, by omega, ?_, ?_⟩
  · exact List.take_left' rfl
  · exact List.drop_left' rfl

/-- C18: for every state, topic t of at most 255 octets and message m, Broker::publish
appends to the trace exactly one write per entry of the subscriber list of t, in list
order and on that entry's session, each the serialized PUB packet with flags 0 and payload
= the length of t as one octet, t, m. When the lists hold no session twice, every
subscriber gets one write and every other session none. With no subscribers the state is
returned as given, and the heap and both registry maps are never changed. -/
theorem C18_publish_fans_out (w : World) (t m : Bytes) (ht : t.length ≤ 255) :
    (Broker.publish w t m).writes
      = w.writes ++ ((w.broker.topic_subscribers_.find t).getD []).map
          (fun s => (s, (Packet.new PacketType.PUB 0
            ([⟨t.length, by omega⟩] ++ t ++ m)).serialize)) ∧
    (Packet.new PacketType.PUB 0 ([⟨t.length, by omega⟩] ++ t ++ m)).type
      = PacketType.PUB ∧
    (Packet.new PacketType.PUB 0 ([⟨t.length, by omega⟩] ++ t ++ m)).flags = 0 ∧
    (Packet.new PacketType.PUB 0 ([⟨t.length, by omega⟩] ++ t ++ m)).payload
      = [⟨t.length, by omega⟩] ++ t ++ m ∧
    (((w.broker.topic_subscribers_.find t).getD []).Nodup →
      ∀ s, (((Broker.publish w t m).writes.drop w.writes.length).map Prod.fst).count s
        = if s ∈ (w.broker.topic_subscribers_.find t).getD [] then 1 else 0) ∧
    ((w.broker.topic_subscribers_.find t).getD [] = [] → Broker.publish w t m = w) ∧
    (Broker.publish w t m).broker = w.broker ∧
    (Broker.publish w t m).heap = w.heap := by
  have hw := publish_eq w t m
  rw [toU8_of_le t.length ht] at hw
  simp only [UnorderedMap.find]
  refine ⟨?_, rfl, rfl, rfl, ?_, ?_, ?_, ?_⟩
  · rw [hw]
    simp
  · intro hnd s
    rw [hw]
    simp only [List.drop_left, List.map_map]
    have hid : (Prod.fst ∘ fun s => (s, (Packet.new PacketType.PUB 0
        (⟨t.length, by omega⟩ :: (t ++ m))).serialize)) = (id : SessionRef → SessionRef) := by
      funext x; rfl
    rw [hid, List.map_id]
    by_cases hmem : s ∈ (w.broker.topic_subscribers_ t).getD []
    · rw [if_pos hmem, List.count_eq_one_of_mem hnd hmem]
    · rw [if_neg hmem, List.count_eq_zero.mpr hmem]
  · intro hnil
    rw [hw, hnil]
    simp
  · rw [hw]
  · rw [hw]

/-- Witness for C18: session 0 publishes "m" to topic "t" after session 1 subscribed
to it. -/
theorem C18_publish_fans_out_witness :
    (Broker.publish World.displacedSubscribed [116] [109]).writes
      = World.displacedSubscribed.writes
        ++ ((World.displacedSubscribed.broker.topic_subscribers_.find [116]).getD []).map
          (fun s => (s, (Packet.new PacketType.PUB 0
            ([⟨[(116 : Byte)].length, by decide⟩] ++ [116] ++ [109])).serialize)) ∧
    (Packet.new PacketType.PUB 0
      ([⟨[(116 : Byte)].length, by decide⟩] ++ [116] ++ [109])).type = PacketType.PUB ∧
    (Packet.new PacketType.PUB 0
      ([⟨[(116 : Byte)].length, by decide⟩] ++ [116] ++ [109])).flags = 0 ∧
    (Packet.new PacketType.PUB 0
      ([⟨[(116 : Byte)].length, by decide⟩] ++ [116] ++ [109])).payload
      = [⟨[(116 : Byte)].length, by decide⟩] ++ [116] ++ [109] ∧
    (((World.displacedSubscribed.broker.topic_subscribers_.find [116]).getD []).Nodup →
      ∀ s, (((Broker.publish World.displacedSubscribed [116] [109]).writes.drop
          World.displacedSubscribed.writes.length).map Prod.fst).count s
        = if s ∈ (World.displacedSubscribed.broker.topic_subscribers_.find [116]).getD []
          then 1 else 0) ∧
    ((World.displacedSubscribed.broker.topic_subscribers_.find [116]).getD [] = [] →
      Broker.publish World.displacedSubscribed [116] [109] = World.displacedSubscribed) ∧
    (Broker.publish World.displacedSubscribed [116] [109]).broker
      = World.displacedSubscribed.broker ∧
    (Broker.publish World.displacedSubscribed [116] [109]).heap
      = World.displacedSubscribed.heap :=
  C18_publish_fans_out World.displacedSubscribed [116] [109] (by decide)

theorem client_handle_publish_calls (c : Client) (packet : Packet) (n : Byte)
    (topic message : Bytes) (cb : CallbackRef)
    (hp : packet.payload = n :: (topic ++ message)) (hn : n.val = topic.length)
    (hm : message ≠ []) (hcb : c.topic_handlers_.find topic = some (some cb)) :
    (c.handle_publish packet).calls = c.calls ++ [(cb, topic, message)] := by
  obtain ⟨h1, h2, h3, h4⟩ := parse_pub_payload n topic message hn hm
  unfold Client.handle_publish
  simp only [hp, h1, h2, h3, h4, hcb, if_true]

/-- C19: for every topic of 1 to 255 octets and every non-empty message with
1 + |topic| + |message| ≤ 65,535. Client::publish (connected, socket open) writes the frame
of the PUB packet whose payload is the octet |topic| (0xFF for 255 octets), the topic, the
message, and Broker::publish sends its subscribers the frame of the same packet. The frame
decodes to that packet, and parsing its payload gives back the topic and the message:
Session::handle_publish (authenticated) calls Broker::publish with exactly them and then
acknowledges, and Client::handle_publish invokes the callback registered for the topic
with exactly them. -/
theorem C19_pub_payload_roundtrip (topic message : Bytes) (c : Client) (cb : CallbackRef)
    (w : World) (self : SessionRef)
    (ht1 : 1 ≤ topic.length) (ht2 : topic.length ≤ 255) (hm : message ≠ [])
    (hlen : 1 + topic.length + message.length ≤ 65535)
    (hconn : c.connected_ = true) (hsock : c.socket_open = true)
    (hcb : c.topic_handlers_.find topic = some (some cb))
    (hauth : (w.heap self).is_authenticated_ = true) :
    (c.publish topic message).1 = true ∧
    (c.publish topic message).2.written
      = c.written ++ [(Packet.new PacketType.PUB 0
          (toU8 topic.length :: (topic ++ message))).serialize] ∧
    (toU8 topic.length).val = topic.length ∧
    (topic.length = 255 → toU8 topic.length = 0xFF) ∧
    (Broker.publish w topic message).writes
      = w.writes ++ ((w.broker.topic_subscribers_.find topic).getD []).map
          (fun s => (s, (Packet.new PacketType.PUB 0
            (toU8 topic.length :: (topic ++ message))).serialize)) ∧
    Packet.empty.deserialize
        (Packet.new PacketType.PUB 0 (toU8 topic.length :: (topic ++ message))).serialize
      = (true, Packet.new PacketType.PUB 0 (toU8 topic.length :: (topic ++ message))) ∧
    Session.handle_publish w self
        (Packet.new PacketType.PUB 0 (toU8 topic.length :: (topic ++ message)))
      = Session.send_ack (Broker.publish w topic message) self PacketType.PUBACK 0 ∧
    (c.handle_publish
        (Packet.new PacketType.PUB 0 (toU8 topic.length :: (topic ++ message)))).calls
      = c.calls ++ [(cb, topic, message)] := by
  have _ := ht1
  have hval : (toU8 topic.length).val = topic.length := by
    rw [toU8_val]; omega
  obtain ⟨h1, h2, h3, h4⟩ := parse_pub_payload (toU8 topic.length) topic message hval hm
  refine ⟨?_, ?_, hval, ?_, ?_, ?_, ?_, ?_⟩
  · simp [Client.publish, Client.send_packet, hconn, hsock]
  · simp [Client.publish, Client.send_packet, hconn, hsock]
  · intro h255
    rw [h255]
    decide
  · rw [publish_eq]
    rfl
  · apply deserialize_serialize
    simp only [List.length_cons, List.length_append]
    omega
  · unfold Session.handle_publish
    simp only [hauth, Bool.not_true, Bool.false_eq_true, if_false]
    show (if (toU8 topic.length :: (topic ++ message)).length > 1 then _ else _) = _
    rw [if_pos h1]
    show (if (toU8 topic.length :: (topic ++ message)).length
        > ((toU8 topic.length :: (topic ++ message)).getD 0 0).val + 1 then _ else _) = _
    rw [if_pos h2]
    show Session.send_ack (Broker.publish w
        (((toU8 topic.length :: (topic ++ message)).drop 1).take
          ((toU8 topic.length :: (topic ++ message)).getD 0 0).val)
        ((toU8 topic.length :: (topic ++ message)).drop
          (1 + ((toU8 topic.length :: (topic ++ message)).getD 0 0).val))) self
        PacketType.PUBACK 0 = _
    rw [h3, h4]
  · exact client_handle_publish_calls c _ (toU8 topic.length) topic message cb rfl hval hm hcb

/-- Witness for C19: the topic "t" and the message "m", a client with callback 7 on "t",
and the authenticated session 0. -/
theorem C19_pub_payload_roundtrip_witness :
    (Client.listening.publish [116] [109]).1 = true ∧
    (Client.listening.publish [116] [109]).2.written
      = Client.listening.written ++ [(Packet.new PacketType.PUB 0
          (toU8 [(116 : Byte)].length :: ([116] ++ [109]))).serialize] ∧
    (toU8 [(116 : Byte)].length).val = [(116 : Byte)].length ∧
    ([(116 : Byte)].length = 255 → toU8 [(116 : Byte)].length = 0xFF) ∧
    (Broker.publish World.oneClient [116] [109]).writes
      = World.oneClient.writes
        ++ ((World.oneClient.broker.topic_subscribers_.find [116]).getD []).map
          (fun s => (s, (Packet.new PacketType.PUB 0
            (toU8 [(116 : Byte)].length :: ([116] ++ [109]))).serialize)) ∧
    Packet.empty.deserialize
        (Packet.new PacketType.PUB 0
          (toU8 [(116 : Byte)].length :: ([116] ++ [109]))).serialize
      = (true, Packet.new PacketType.PUB 0
          (toU8 [(116 : Byte)].length :: ([116] ++ [109]))) ∧
    Session.handle_publish World.oneClient 0
        (Packet.new PacketType.PUB 0 (toU8 [(116 : Byte)].length :: ([116] ++ [109])))
      = Session.send_ack (Broker.publish World.oneClient [116] [109]) 0
          PacketType.PUBACK 0 ∧
    (Client.listening.handle_publish
        (Packet.new PacketType.PUB 0
          (toU8 [(116 : Byte)].length :: ([116] ++ [109])))).calls
      = Client.listening.calls ++ [(7, [116], [109])] :=
  C19_pub_payload_roundtrip [116] [109] Client.listening 7 World.oneClient 0
    (by decide) (by decide) (by decide) (by decide) rfl rfl (by decide) (by decide)

/-! ## A repeated CONN with the same client id -/

theorem assign_same {κ ν : Type} [DecidableEq κ] (m : UnorderedMap κ ν) (k : κ) (v : ν)
    (h : m k = some v) : m.assign k v = m := by
  funext k'
  unfold UnorderedMap.assign
  by_cases hk : k' = k
  · rw [if_pos hk, hk, h]
  · rw [if_neg hk]

theorem update_same_session (heap : SessionRef → Session) (self : SessionRef) (c : Bytes)
    (hauth : (heap self).is_authenticated_ = true) (hid : (heap self).client_id_ = c) :
    Function.update heap self
        { (heap self) with client_id_ := c, is_authenticated_ := true } = heap := by
  have hs : ({ (heap self) with client_id_ := c, is_authenticated_ := true } : Session)
      = heap self := by
    cases hh : heap self with
    | mk cid auth sock =>
      rw [hh] at hauth hid
      simp only at hauth hid
      rw [hauth, hid]
  rw [hs, Function.update_eq_self]

theorem handle_publish_heap (w : World) (self : SessionRef) (packet : Packet) :
    (Session.handle_publish w self packet).heap = w.heap := by
  unfold Session.handle_publish
  split
  · rfl
  · simp only
    split
    · split
      · rw [send_ack_zero, publish_eq]
      · rfl
    · rfl

theorem handle_subscribe_heap (w : World) (self : SessionRef) (packet : Packet) :
    (Session.handle_subscribe w self packet).heap = w.heap := by
  unfold Session.handle_subscribe
  split
  · rfl
  · simp only
    split
    · rw [send_ack_zero]
    · rfl

theorem handle_unsubscribe_heap (w : World) (self : SessionRef) (packet : Packet) :
    (Session.handle_unsubscribe w self packet).heap = w.heap := by
  unfold Session.handle_unsubscribe
  split
  · rfl
  · simp only
    split
    · rw [send_ack_zero]
    · rfl

/-- An authenticated session has a non-empty client id: the property holds at start-up
(no session is authenticated) and every processed packet keeps it; a connection close
does not touch the session objects. -/
theorem authenticated_id_nonempty_step (w : World) (self : SessionRef) (packet : Packet)
    (h : ∀ s, (w.heap s).is_authenticated_ = true → (w.heap s).client_id_ ≠ []) :
    ∀ s, ((Session.process_packet w self packet).heap s).is_authenticated_ = true →
      ((Session.process_packet w self packet).heap s).client_id_ ≠ [] := by
  unfold Session.process_packet
  split
  · by_cases hne : packet.payload = []
    · intro s
      unfold Session.handle_connect
      simp only [hne, List.isEmpty_nil, Bool.not_true, Bool.false_eq_true, if_false]
      by_cases hs : s = self
      · rw [hs, Function.update_same]; exact h self
      · rw [Function.update_noteq hs]; exact h s
    · intro s
      rw [handle_connect_nonempty w self packet hne]
      by_cases hs : s = self
      · rw [hs]; simp only [Function.update_same]; intro _; exact hne
      · simp only [Function.update_noteq hs]; exact h s
  · split
    · rw [handle_publish_heap]; exact h
    · split
      · rw [handle_subscribe_heap]; exact h
      · split
        · rw [handle_unsubscribe_heap]; exact h
        · exact h

theorem authenticated_id_nonempty_init :
    ∀ s, (World.init.heap s).is_authenticated_ = true → (World.init.heap s).client_id_ ≠ [] := by
  intro s h
  exact Bool.noConfusion (h : false = true)

theorem on_io_error_heap (w : World) (self : SessionRef) :
    (Session.on_io_error w self).heap = w.heap := rfl

/-- C21: for every authenticated session s that is registered under its client id c and
receives a further CONN packet with payload c: register_session finds s itself under c and
filters s out of every subscriber list. Afterwards the sessions map is as before, so s is
still registered under c; exactly one CONNACK was written on s; s is in no subscriber
list; every topic keeps its entry, with the other sessions in their order; and the
session objects are unchanged. -/
theorem C21_reconnect_self_displacement (w : World) (self : SessionRef) (packet : Packet)
    (c : Bytes)
    (hauth : (w.heap self).is_authenticated_ = true)
    (hid : (w.heap self).client_id_ = c) (hc : c ≠ [])
    (hreg : w.broker.sessions_.find c = some self)
    (htype : packet.type = PacketType.CONN) (hpayload : packet.payload = c) :
    (Session.process_packet w self packet).broker
      = w.broker.register_session w.heap self ∧
    (Session.process_packet w self packet).broker.topic_subscribers_
      = w.broker.topic_subscribers_.forEachValue (eraseRemove self) ∧
    (Session.process_packet w self packet).broker.sessions_ = w.broker.sessions_ ∧
    (Session.process_packet w self packet).broker.sessions_.find c = some self ∧
    (Session.process_packet w self packet).writes
      = w.writes ++ [(self, (Packet.new PacketType.CONNACK 0 []).serialize)] ∧
    (Packet.new PacketType.CONNACK 0 []).serialize = [2, 0, 0, 0] ∧
    (∀ t l, (Session.process_packet w self packet).broker.topic_subscribers_.find t
        = some l → self ∉ l) ∧
    (∀ t l, w.broker.topic_subscribers_.find t = some l →
      ∃ l', (Session.process_packet w self packet).broker.topic_subscribers_.find t
          = some l' ∧
        l'.Sublist l ∧ ∀ x, x ≠ self → List.count x l' = List.count x l) ∧
    (Session.process_packet w self packet).heap = w.heap := by
  have hne : packet.payload ≠ [] := by rw [hpayload]; exact hc
  simp only [UnorderedMap.find] at hreg ⊢
  rw [process_packet_CONN w self packet htype, handle_connect_nonempty w self packet hne,
    hpayload, update_same_session w.heap self c hauth hid]
  have htop : (w.broker.register_session w.heap self).topic_subscribers_
      = w.broker.topic_subscribers_.forEachValue (eraseRemove self) := by
    funext t
    rw [register_session_apply, hid, hreg]
    rfl
  have hses : (w.broker.register_session w.heap self).sessions_ = w.broker.sessions_ := by
    simp only [Broker.register_session, hid]
    exact assign_same w.broker.sessions_ c self hreg
  refine ⟨rfl, htop, hses, ?_, rfl, ack_frame PacketType.CONNACK, ?_, ?_, rfl⟩
  · show (w.broker.register_session w.heap self).sessions_ c = some self
    rw [hses, hreg]
  · intro t l hl
    have hl' : (w.broker.register_session w.heap self).topic_subscribers_ t = some l := hl
    rw [htop, forEachValue_apply] at hl'
    rcases hsub : w.broker.topic_subscribers_ t with _ | l0
    · rw [hsub] at hl'; simp at hl'
    · rw [hsub] at hl'
      simp only [Option.map_some', Option.some.injEq] at hl'
      rw [← hl']
      exact not_mem_eraseRemove self l0
  · intro t l hl
    refine ⟨eraseRemove self l, ?_, eraseRemove_sublist self l,
      fun x hx => count_eraseRemove_of_ne self x l hx⟩
    show (w.broker.register_session w.heap self).topic_subscribers_ t = _
    rw [htop, forEachValue_apply, hl]
    rfl

/-- Witness for C21: session 0, registered as "a" and subscribed to "t" before session 1,
sends CONN "a" again. -/
theorem C21_reconnect_self_displacement_witness :
    (Session.process_packet World.twoSubscribed 0 (Packet.new PacketType.CONN 0 [97])).broker
      = World.twoSubscribed.broker.register_session World.twoSubscribed.heap 0 ∧
    (Session.process_packet World.twoSubscribed 0
        (Packet.new PacketType.CONN 0 [97])).broker.topic_subscribers_
      = World.twoSubscribed.broker.topic_subscribers_.forEachValue (eraseRemove 0) ∧
    (Session.process_packet World.twoSubscribed 0
        (Packet.new PacketType.CONN 0 [97])).broker.sessions_
      = World.twoSubscribed.broker.sessions_ ∧
    (Session.process_packet World.twoSubscribed 0
        (Packet.new PacketType.CONN 0 [97])).broker.sessions_.find [97] = some 0 ∧
    (Session.process_packet World.twoSubscribed 0 (Packet.new PacketType.CONN 0 [97])).writes
      = World.twoSubscribed.writes
        ++ [(0, (Packet.new PacketType.CONNACK 0 []).serialize)] ∧
    (Packet.new PacketType.CONNACK 0 []).serialize = [2, 0, 0, 0] ∧
    (∀ t l, (Session.process_packet World.twoSubscribed 0
        (Packet.new PacketType.CONN 0 [97])).broker.topic_subscribers_.find t
        = some l → 0 ∉ l) ∧
    (∀ t l, World.twoSubscribed.broker.topic_subscribers_.find t = some l →
      ∃ l', (Session.process_packet World.twoSubscribed 0
          (Packet.new PacketType.CONN 0 [97])).broker.topic_subscribers_.find t = some l' ∧
        l'.Sublist l ∧ ∀ x, x ≠ 0 → List.count x l' = List.count x l) ∧
    (Session.process_packet World.twoSubscribed 0 (Packet.new PacketType.CONN 0 [97])).heap
      = World.twoSubscribed.heap :=
  C21_reconnect_self_displacement World.twoSubscribed 0 (Packet.new PacketType.CONN 0 [97])
    [97] (by decide) (by decide) (by decide) (by decide) rfl rfl

end tinymq
